import Mathlib

/-!
Verification development for the DOCX report formatter
(`formatter.py`): configuration model, JSON-level merge, template
tokenizer, and the document-mutation engine, embedded shallowly.

The configuration (de)serialization is modelled at the level of the
decoded JSON value (`json.dumps`/`json.loads` on the nested dicts
produced by `asdict` is the identity on such values, so the byte layer
adds nothing).  Python dicts are modelled as insertion-ordered
key/value sequences, which is how CPython dicts behave.
-/

mutual

/-- A decoded JSON value as produced by `json.loads` on a config file:
`null`, booleans, integers, floats (modelled exactly as rationals),
strings and string-keyed objects.  The configuration model contains no
arrays, so they are omitted. -/
inductive JVal where
  | jnull
  | jbool (b : Bool)
  | jint (n : Int)
  | jfloat (q : ℚ)
  | jstr (s : String)
  | jobj (fields : JFields)

/-- The insertion-ordered fields of a JSON object / Python dict. -/
inductive JFields where
  | nil
  | cons (k : String) (v : JVal) (rest : JFields)

end

/-- Models `d.get(k)` on an insertion-ordered dict. -/
def JFields.get : JFields → String → Option JVal
  | .nil, _ => none
  | .cons k v rest, key => if k = key then some v else rest.get key

/-- Models `d[k] = v` on an insertion-ordered dict: an existing key keeps its
position, a new key is appended. -/
def JFields.set : JFields → String → JVal → JFields
  | .nil, key, val => .cons key val .nil
  | .cons k v rest, key, val =>
    if k = key then .cons k val rest else .cons k v (rest.set key val)

/-- The keys of a dict, in order. -/
def JFields.keys : JFields → List String
  | .nil => []
  | .cons k _ rest => k :: rest.keys

/-- Appending two dicts (used only to state lemmas about `JFields.set`). -/
def JFields.append : JFields → JFields → JFields
  | .nil, b => b
  | .cons k v rest, b => .cons k v (rest.append b)

mutual

/-- Models `deep_merge(a, b)` from `formatter.py`: start from a copy of `a`;
for each item of `b` in order, if the incoming value and the current
value at that key are both dicts, merge them recursively, otherwise the
incoming value replaces the current one. -/
def deep_merge (a : JFields) : JFields → JFields
  | .nil => a
  | .cons k v rest => deep_merge (deep_merge_key a k v) rest

/-- One step of `deep_merge`: the body of its `for` loop for one
key/value pair of `b`, mirroring the source's
`isinstance(v, dict) and isinstance(out.get(k), dict)` test. -/
def deep_merge_key (a : JFields) (k : String) (v : JVal) : JFields :=
  match v with
  | JVal.jobj bo =>
    match a.get k with
    | some (JVal.jobj ao) => a.set k (JVal.jobj (deep_merge ao bo))
    | _ => a.set k (JVal.jobj bo)
  | _ => a.set k v

end

example : deep_merge (.cons "a" (JVal.jint 1) .nil) (.cons "a" (JVal.jint 2) .nil)
    = .cons "a" (JVal.jint 2) .nil := rfl

example (v : JVal) : deep_merge (.cons "a" (JVal.jint 1) .nil) (.cons "b" v .nil)
    = .cons "a" (JVal.jint 1) (.cons "b" v .nil) := by
  cases v <;> rfl

/-- Builds a dict from an ordered list of key/value pairs. -/
def JFields.ofList : List (String × JVal) → JFields
  | [] => .nil
  | (k, v) :: rest => .cons k v (ofList rest)

/-! ## The configuration dataclasses (`formatter.py` lines 39-102)

Python floats are modelled as rationals (the values occurring in the
configuration and its JSON round trip are all exactly representable and
no float arithmetic is performed on them before the claims observe
them). -/

/-- Models `StyleConfig` with its dataclass field defaults. -/
structure StyleConfig where
  font_name : String := "Times New Roman"
  font_size_pt : ℚ := 13
  bold : Bool := false
  italic : Bool := false
  color_hex : Option String := none
  line_spacing : ℚ := mkRat 3 2
  space_before_pt : ℚ := 0
  space_after_pt : ℚ := 6
  first_line_indent_cm : ℚ := 1
  alignment : String := "JUSTIFY"
  keep_with_next : Bool := false
  page_break_before : Bool := false
deriving Repr, DecidableEq

/-- Models `PageSetupConfig` with its dataclass field defaults. -/
structure PageSetupConfig where
  paper : String := "A4_PORTRAIT"
  margin_left_cm : ℚ := mkRat 7 2
  margin_right_cm : ℚ := 2
  margin_top_cm : ℚ := 2
  margin_bottom_cm : ℚ := 2
  header_distance_cm : ℚ := mkRat 5 4
  footer_distance_cm : ℚ := mkRat 5 4
  different_first_page : Bool := false
deriving Repr, DecidableEq

/-- Models `PageNumberConfig` with its dataclass field defaults.  The template
default is `"Trang {PAGE}/{NUMPAGES}"`; the placeholder braces are
written with `\x7b`/`\x7d` escapes throughout this file. -/
structure PageNumberConfig where
  enabled : Bool := true
  position : String := "FOOTER_CENTER"
  template : String := "Trang \x7bPAGE\x7d/\x7bNUMPAGES\x7d"
  start_at : Int := 1
  restart_each_section : Bool := false
  number_format : String := "DECIMAL"
  font_name : String := "Times New Roman"
  font_size_pt : ℚ := 11
deriving Repr, DecidableEq

/-- Models `TocConfig` with its dataclass field defaults. -/
structure TocConfig where
  insert_toc : Bool := false
  heading_levels : String := "1-3"
  title : String := "MỤC LỤC"
  title_bold : Bool := true
  title_font_size_pt : ℚ := 14
  title_alignment : String := "CENTER"
deriving Repr, DecidableEq

/-- Models `ProcessingConfig` with its dataclass field defaults. -/
structure ProcessingConfig where
  force_run_font_everywhere : Bool := true
  force_paragraph_format_everywhere : Bool := true
  include_tables : Bool := true
deriving Repr, DecidableEq

/-- Models `ReportConfig` with the per-style defaults of `formatter.py`
lines 93-102; `{}` is `ReportConfig()`. -/
structure ReportConfig where
  normal : StyleConfig := {}
  title : StyleConfig :=
    { font_size_pt := 16, bold := true, alignment := "CENTER",
      space_after_pt := 12, first_line_indent_cm := 0, line_spacing := mkRat 6 5 }
  heading1 : StyleConfig :=
    { font_size_pt := 14, bold := true, alignment := "LEFT",
      space_before_pt := 12, space_after_pt := 6, first_line_indent_cm := 0,
      line_spacing := mkRat 6 5, keep_with_next := true }
  heading2 : StyleConfig :=
    { font_size_pt := 13, bold := true, alignment := "LEFT",
      space_before_pt := 10, space_after_pt := 4, first_line_indent_cm := 0,
      line_spacing := mkRat 6 5, keep_with_next := true }
  heading3 : StyleConfig :=
    { font_size_pt := 13, bold := true, italic := true, alignment := "LEFT",
      space_before_pt := 8, space_after_pt := 4, first_line_indent_cm := 0,
      line_spacing := mkRat 6 5, keep_with_next := true }
  caption : StyleConfig :=
    { font_size_pt := 11, italic := true, alignment := "CENTER",
      space_before_pt := 6, space_after_pt := 6, first_line_indent_cm := 0,
      line_spacing := 1 }
  pagesetup : PageSetupConfig := {}
  pagenumber : PageNumberConfig := {}
  toc : TocConfig := {}
  processing : ProcessingConfig := {}
deriving Repr, DecidableEq

/-! ## `asdict` / `cfg_to_dict` -/

/-- JSON encoding of an `Optional[str]` field value. -/
def optStrJ : Option String → JVal
  | none => JVal.jnull
  | some s => JVal.jstr s

/-- Models `asdict` on a `StyleConfig`, fields in declaration order. -/
def styleToDict (s : StyleConfig) : JFields := JFields.ofList
  [("font_name", JVal.jstr s.font_name),
   ("font_size_pt", JVal.jfloat s.font_size_pt),
   ("bold", JVal.jbool s.bold),
   ("italic", JVal.jbool s.italic),
   ("color_hex", optStrJ s.color_hex),
   ("line_spacing", JVal.jfloat s.line_spacing),
   ("space_before_pt", JVal.jfloat s.space_before_pt),
   ("space_after_pt", JVal.jfloat s.space_after_pt),
   ("first_line_indent_cm", JVal.jfloat s.first_line_indent_cm),
   ("alignment", JVal.jstr s.alignment),
   ("keep_with_next", JVal.jbool s.keep_with_next),
   ("page_break_before", JVal.jbool s.page_break_before)]

/-- Models `asdict` on a `PageSetupConfig`. -/
def pagesetupToDict (s : PageSetupConfig) : JFields := JFields.ofList
  [("paper", JVal.jstr s.paper),
   ("margin_left_cm", JVal.jfloat s.margin_left_cm),
   ("margin_right_cm", JVal.jfloat s.margin_right_cm),
   ("margin_top_cm", JVal.jfloat s.margin_top_cm),
   ("margin_bottom_cm", JVal.jfloat s.margin_bottom_cm),
   ("header_distance_cm", JVal.jfloat s.header_distance_cm),
   ("footer_distance_cm", JVal.jfloat s.footer_distance_cm),
   ("different_first_page", JVal.jbool s.different_first_page)]

/-- Models `asdict` on a `PageNumberConfig`. -/
def pagenumberToDict (s : PageNumberConfig) : JFields := JFields.ofList
  [("enabled", JVal.jbool s.enabled),
   ("position", JVal.jstr s.position),
   ("template", JVal.jstr s.template),
   ("start_at", JVal.jint s.start_at),
   ("restart_each_section", JVal.jbool s.restart_each_section),
   ("number_format", JVal.jstr s.number_format),
   ("font_name", JVal.jstr s.font_name),
   ("font_size_pt", JVal.jfloat s.font_size_pt)]

/-- Models `asdict` on a `TocConfig`. -/
def tocToDict (s : TocConfig) : JFields := JFields.ofList
  [("insert_toc", JVal.jbool s.insert_toc),
   ("heading_levels", JVal.jstr s.heading_levels),
   ("title", JVal.jstr s.title),
   ("title_bold", JVal.jbool s.title_bold),
   ("title_font_size_pt", JVal.jfloat s.title_font_size_pt),
   ("title_alignment", JVal.jstr s.title_alignment)]

/-- Models `asdict` on a `ProcessingConfig`. -/
def processingToDict (s : ProcessingConfig) : JFields := JFields.ofList
  [("force_run_font_everywhere", JVal.jbool s.force_run_font_everywhere),
   ("force_paragraph_format_everywhere", JVal.jbool s.force_paragraph_format_everywhere),
   ("include_tables", JVal.jbool s.include_tables)]

/-- Models `cfg_to_dict(cfg) = asdict(cfg)`: the nested dict of the whole
configuration, sections in field order. -/
def cfg_to_dict (c : ReportConfig) : JFields := JFields.ofList
  [("normal", JVal.jobj (styleToDict c.normal)),
   ("title", JVal.jobj (styleToDict c.title)),
   ("heading1", JVal.jobj (styleToDict c.heading1)),
   ("heading2", JVal.jobj (styleToDict c.heading2)),
   ("heading3", JVal.jobj (styleToDict c.heading3)),
   ("caption", JVal.jobj (styleToDict c.caption)),
   ("pagesetup", JVal.jobj (pagesetupToDict c.pagesetup)),
   ("pagenumber", JVal.jobj (pagenumberToDict c.pagenumber)),
   ("toc", JVal.jobj (tocToDict c.toc)),
   ("processing", JVal.jobj (processingToDict c.processing))]

/-! ## `cfg_from_dict`

Each `build_*` helper models the dataclass constructor call
`Cls(**x)`: an unexpected keyword raises `TypeError` (here: `none`),
a missing one falls back to the field default.  Python performs no
runtime type check on the values; the readers below restrict the model
to payloads of the annotated field types, which covers every valid
configuration file. -/

/-- Reads a `str` field: absent means the dataclass default. -/
def getStr (d : JFields) (key : String) (dflt : String) : Option String :=
  match d.get key with
  | none => some dflt
  | some (JVal.jstr s) => some s
  | some _ => none

/-- Reads a `float` field (a JSON integer is also a valid float). -/
def getQ (d : JFields) (key : String) (dflt : ℚ) : Option ℚ :=
  match d.get key with
  | none => some dflt
  | some (JVal.jfloat q) => some q
  | some (JVal.jint n) => some (n : ℚ)
  | some _ => none

/-- Reads a `bool` field. -/
def getBool (d : JFields) (key : String) (dflt : Bool) : Option Bool :=
  match d.get key with
  | none => some dflt
  | some (JVal.jbool b) => some b
  | some _ => none

/-- Reads an `int` field. -/
def getInt (d : JFields) (key : String) (dflt : Int) : Option Int :=
  match d.get key with
  | none => some dflt
  | some (JVal.jint n) => some n
  | some _ => none

/-- Reads an `Optional[str]` field. -/
def getOptStr (d : JFields) (key : String) (dflt : Option String) : Option (Option String) :=
  match d.get key with
  | none => some dflt
  | some JVal.jnull => some none
  | some (JVal.jstr s) => some (some s)
  | some _ => none

/-- The field names accepted by `StyleConfig(**x)`. -/
def styleFields : List String :=
  ["font_name", "font_size_pt", "bold", "italic", "color_hex", "line_spacing",
   "space_before_pt", "space_after_pt", "first_line_indent_cm", "alignment",
   "keep_with_next", "page_break_before"]

/-- Models `build_style(x) = StyleConfig(**x)`. -/
def build_style (d : JFields) : Option StyleConfig :=
  if d.keys.all (fun k => styleFields.contains k) then do
    let font_name ← getStr d "font_name" "Times New Roman"
    let font_size_pt ← getQ d "font_size_pt" 13
    let bold ← getBool d "bold" false
    let italic ← getBool d "italic" false
    let color_hex ← getOptStr d "color_hex" none
    let line_spacing ← getQ d "line_spacing" (mkRat 3 2)
    let space_before_pt ← getQ d "space_before_pt" 0
    let space_after_pt ← getQ d "space_after_pt" 6
    let first_line_indent_cm ← getQ d "first_line_indent_cm" 1
    let alignment ← getStr d "alignment" "JUSTIFY"
    let keep_with_next ← getBool d "keep_with_next" false
    let page_break_before ← getBool d "page_break_before" false
    some { font_name, font_size_pt, bold, italic, color_hex, line_spacing,
           space_before_pt, space_after_pt, first_line_indent_cm, alignment,
           keep_with_next, page_break_before }
  else none

/-- The field names accepted by `PageSetupConfig(**x)`. -/
def pagesetupFields : List String :=
  ["paper", "margin_left_cm", "margin_right_cm", "margin_top_cm",
   "margin_bottom_cm", "header_distance_cm", "footer_distance_cm",
   "different_first_page"]

/-- Models `build_pagesetup(x) = PageSetupConfig(**x)`. -/
def build_pagesetup (d : JFields) : Option PageSetupConfig :=
  if d.keys.all (fun k => pagesetupFields.contains k) then do
    let paper ← getStr d "paper" "A4_PORTRAIT"
    let margin_left_cm ← getQ d "margin_left_cm" (mkRat 7 2)
    let margin_right_cm ← getQ d "margin_right_cm" 2
    let margin_top_cm ← getQ d "margin_top_cm" 2
    let margin_bottom_cm ← getQ d "margin_bottom_cm" 2
    let header_distance_cm ← getQ d "header_distance_cm" (mkRat 5 4)
    let footer_distance_cm ← getQ d "footer_distance_cm" (mkRat 5 4)
    let different_first_page ← getBool d "different_first_page" false
    some { paper, margin_left_cm, margin_right_cm, margin_top_cm,
           margin_bottom_cm, header_distance_cm, footer_distance_cm,
           different_first_page }
  else none

/-- The field names accepted by `PageNumberConfig(**x)`. -/
def pagenumberFields : List String :=
  ["enabled", "position", "template", "start_at", "restart_each_section",
   "number_format", "font_name", "font_size_pt"]

/-- Models `build_pagenumber(x) = PageNumberConfig(**x)`. -/
def build_pagenumber (d : JFields) : Option PageNumberConfig :=
  if d.keys.all (fun k => pagenumberFields.contains k) then do
    let enabled ← getBool d "enabled" true
    let position ← getStr d "position" "FOOTER_CENTER"
    let template ← getStr d "template" "Trang \x7bPAGE\x7d/\x7bNUMPAGES\x7d"
    let start_at ← getInt d "start_at" 1
    let restart_each_section ← getBool d "restart_each_section" false
    let number_format ← getStr d "number_format" "DECIMAL"
    let font_name ← getStr d "font_name" "Times New Roman"
    let font_size_pt ← getQ d "font_size_pt" 11
    some { enabled, position, template, start_at, restart_each_section,
           number_format, font_name, font_size_pt }
  else none

/-- The field names accepted by `TocConfig(**x)`. -/
def tocFields : List String :=
  ["insert_toc", "heading_levels", "title", "title_bold",
   "title_font_size_pt", "title_alignment"]

/-- Models `build_toc(x) = TocConfig(**x)`. -/
def build_toc (d : JFields) : Option TocConfig :=
  if d.keys.all (fun k => tocFields.contains k) then do
    let insert_toc ← getBool d "insert_toc" false
    let heading_levels ← getStr d "heading_levels" "1-3"
    let title ← getStr d "title" "MỤC LỤC"
    let title_bold ← getBool d "title_bold" true
    let title_font_size_pt ← getQ d "title_font_size_pt" 14
    let title_alignment ← getStr d "title_alignment" "CENTER"
    some { insert_toc, heading_levels, title, title_bold,
           title_font_size_pt, title_alignment }
  else none

/-- The field names accepted by `ProcessingConfig(**x)`. -/
def processingFields : List String :=
  ["force_run_font_everywhere", "force_paragraph_format_everywhere",
   "include_tables"]

/-- Models `build_processing(x) = ProcessingConfig(**x)`. -/
def build_processing (d : JFields) : Option ProcessingConfig :=
  if d.keys.all (fun k => processingFields.contains k) then do
    let force_run_font_everywhere ← getBool d "force_run_font_everywhere" true
    let force_paragraph_format_everywhere ← getBool d "force_paragraph_format_everywhere" true
    let include_tables ← getBool d "include_tables" true
    some { force_run_font_everywhere, force_paragraph_format_everywhere,
           include_tables }
  else none

/-- Models `merged[key]` followed by the record constructor requires a dict
(`Cls(**x)` raises for a non-mapping). -/
def getObj (d : JFields) (key : String) : Option JFields :=
  match d.get key with
  | some (JVal.jobj o) => some o
  | _ => none

/-- The return statement of `cfg_from_dict`: rebuild each typed record
from the merged dict; any constructor error is `none`. -/
def build_all (merged : JFields) : Option ReportConfig :=
  do
    let normal ← getObj merged "normal" >>= build_style
    let title ← getObj merged "title" >>= build_style
    let heading1 ← getObj merged "heading1" >>= build_style
    let heading2 ← getObj merged "heading2" >>= build_style
    let heading3 ← getObj merged "heading3" >>= build_style
    let caption ← getObj merged "caption" >>= build_style
    let pagesetup ← getObj merged "pagesetup" >>= build_pagesetup
    let pagenumber ← getObj merged "pagenumber" >>= build_pagenumber
    let toc ← getObj merged "toc" >>= build_toc
    let processing ← getObj merged "processing" >>= build_processing
    some { normal, title, heading1, heading2, heading3, caption,
           pagesetup, pagenumber, toc, processing }

/-- Models `cfg_from_dict(d)`: deep-merge the partial dict over the defaults,
then rebuild the typed records. -/
def cfg_from_dict (d : JFields) : Option ReportConfig :=
  build_all (deep_merge (cfg_to_dict {}) d)

/-- Models `save_config_json_bytes` serializes `cfg_to_dict(cfg)` as UTF-8
JSON text.  Parsing that text yields the same dict again, so the byte
stage is modelled by the dict itself. -/
def save_config_json_bytes (cfg : ReportConfig) : JFields := cfg_to_dict cfg

/-- Models `load_config_json_bytes` parses the JSON bytes back to a dict and
applies `cfg_from_dict`. -/
def load_config_json_bytes (data : JFields) : Option ReportConfig := cfg_from_dict data

example : cfg_from_dict JFields.nil = some {} := rfl

/-! ### Generic facts about `deep_merge`

The key computations of `cfg_from_dict` always merge two dicts with the
same ordered key list.  The lemmas below describe such a parallel merge
once and for all, so no proof has to unfold a merge of two 10- or
12-entry dicts step by step. -/

/-- The value a single `deep_merge` loop step leaves at its key, as a
function of the current value `va` and the incoming value `vb`. -/
def mergeVal (va vb : JVal) : JVal :=
  match vb with
  | JVal.jobj bo =>
    match va with
    | JVal.jobj ao => JVal.jobj (deep_merge ao bo)
    | _ => JVal.jobj bo
  | _ => vb

theorem mergeVal_jnull (va : JVal) : mergeVal va JVal.jnull = JVal.jnull := rfl

theorem mergeVal_jbool (va : JVal) (b : Bool) :
    mergeVal va (JVal.jbool b) = JVal.jbool b := rfl

theorem mergeVal_jint (va : JVal) (n : Int) :
    mergeVal va (JVal.jint n) = JVal.jint n := rfl

theorem mergeVal_jfloat (va : JVal) (q : ℚ) :
    mergeVal va (JVal.jfloat q) = JVal.jfloat q := rfl

theorem mergeVal_jstr (va : JVal) (t : String) :
    mergeVal va (JVal.jstr t) = JVal.jstr t := rfl

theorem mergeVal_optStrJ (va : JVal) (o : Option String) :
    mergeVal va (optStrJ o) = optStrJ o := by
  cases o <;> rfl

theorem mergeVal_jobj_jobj (ao bo : JFields) :
    mergeVal (JVal.jobj ao) (JVal.jobj bo) = JVal.jobj (deep_merge ao bo) := rfl

theorem deep_merge_key_head (k : String) (va : JVal) (A : JFields) (vb : JVal) :
    deep_merge_key (.cons k va A) k vb = .cons k (mergeVal va vb) A := by
  cases vb <;> cases va <;>
    simp [deep_merge_key, mergeVal, JFields.get, JFields.set]

theorem deep_merge_key_cons_ne (k k' : String) (h : ¬k = k') (m : JVal)
    (X : JFields) (v : JVal) :
    deep_merge_key (.cons k m X) k' v = .cons k m (deep_merge_key X k' v) := by
  cases v <;> simp only [deep_merge_key, JFields.get, JFields.set, if_neg h]
  rcases hX : X.get k' with _ | w
  · simp [JFields.set, if_neg h]
  · cases w <;> simp [JFields.set, if_neg h]

/-- A parallel key list with, at each key, the current and the incoming
value. -/
def triplesA : List (String × JVal × JVal) → JFields
  | [] => .nil
  | (k, va, _) :: r => .cons k va (triplesA r)

def triplesB : List (String × JVal × JVal) → JFields
  | [] => .nil
  | (k, _, vb) :: r => .cons k vb (triplesB r)

def triplesM : List (String × JVal × JVal) → JFields
  | [] => .nil
  | (k, va, vb) :: r => .cons k (mergeVal va vb) (triplesM r)

theorem triplesB_keys (l : List (String × JVal × JVal)) :
    (triplesB l).keys = l.map Prod.fst := by
  induction l with
  | nil => rfl
  | cons x r ih => obtain ⟨k, va, vb⟩ := x; simp [triplesB, JFields.keys, ih]

theorem deep_merge_cons_notin (k : String) (m : JVal)
    (r : List (String × JVal × JVal)) (hk : k ∉ r.map Prod.fst) :
    ∀ A, deep_merge (.cons k m A) (triplesB r) = .cons k m (deep_merge A (triplesB r)) := by
  induction r with
  | nil => intro A; rfl
  | cons x rest ih =>
    intro A
    obtain ⟨k', va', vb'⟩ := x
    simp only [List.map_cons, List.mem_cons, not_or] at hk
    simp only [triplesB, deep_merge, deep_merge_key_cons_ne k k' hk.1 m A vb']
    exact ih hk.2 (deep_merge_key A k' vb')

/-- Merging two dicts with the same (duplicate-free) ordered key list
merges value-wise. -/
theorem deep_merge_parallel (l : List (String × JVal × JVal))
    (h : (l.map Prod.fst).Nodup) :
    deep_merge (triplesA l) (triplesB l) = triplesM l := by
  induction l with
  | nil => rfl
  | cons x r ih =>
    obtain ⟨k, va, vb⟩ := x
    simp only [List.map_cons, List.nodup_cons] at h
    simp only [triplesA, triplesB, triplesM, deep_merge,
      deep_merge_key_head k va (triplesA r) vb,
      deep_merge_cons_notin k (mergeVal va vb) r h.1 (triplesA r),
      ih h.2]

/-- Deep merge acts section-wise on two `cfg_to_dict` images: the ten
top-level keys pair up and all carry nested dicts. -/
theorem merge_cfg_to_dict (a b : ReportConfig) :
    deep_merge (cfg_to_dict a) (cfg_to_dict b) = JFields.ofList
      [("normal", JVal.jobj (deep_merge (styleToDict a.normal) (styleToDict b.normal))),
       ("title", JVal.jobj (deep_merge (styleToDict a.title) (styleToDict b.title))),
       ("heading1", JVal.jobj (deep_merge (styleToDict a.heading1) (styleToDict b.heading1))),
       ("heading2", JVal.jobj (deep_merge (styleToDict a.heading2) (styleToDict b.heading2))),
       ("heading3", JVal.jobj (deep_merge (styleToDict a.heading3) (styleToDict b.heading3))),
       ("caption", JVal.jobj (deep_merge (styleToDict a.caption) (styleToDict b.caption))),
       ("pagesetup", JVal.jobj (deep_merge (pagesetupToDict a.pagesetup) (pagesetupToDict b.pagesetup))),
       ("pagenumber", JVal.jobj (deep_merge (pagenumberToDict a.pagenumber) (pagenumberToDict b.pagenumber))),
       ("toc", JVal.jobj (deep_merge (tocToDict a.toc) (tocToDict b.toc))),
       ("processing", JVal.jobj (deep_merge (processingToDict a.processing) (processingToDict b.processing)))] := by
  have := deep_merge_parallel
    [("normal", JVal.jobj (styleToDict a.normal), JVal.jobj (styleToDict b.normal)),
     ("title", JVal.jobj (styleToDict a.title), JVal.jobj (styleToDict b.title)),
     ("heading1", JVal.jobj (styleToDict a.heading1), JVal.jobj (styleToDict b.heading1)),
     ("heading2", JVal.jobj (styleToDict a.heading2), JVal.jobj (styleToDict b.heading2)),
     ("heading3", JVal.jobj (styleToDict a.heading3), JVal.jobj (styleToDict b.heading3)),
     ("caption", JVal.jobj (styleToDict a.caption), JVal.jobj (styleToDict b.caption)),
     ("pagesetup", JVal.jobj (pagesetupToDict a.pagesetup), JVal.jobj (pagesetupToDict b.pagesetup)),
     ("pagenumber", JVal.jobj (pagenumberToDict a.pagenumber), JVal.jobj (pagenumberToDict b.pagenumber)),
     ("toc", JVal.jobj (tocToDict a.toc), JVal.jobj (tocToDict b.toc)),
     ("processing", JVal.jobj (processingToDict a.processing), JVal.jobj (processingToDict b.processing))]
    (by simp)
  simpa [cfg_to_dict, JFields.ofList, triplesA, triplesB, triplesM, mergeVal_jobj_jobj] using this

set_option maxHeartbeats 1000000 in
/-- Running `build_all` on a dict with the ten section keys binds the
section constructors in order. -/
theorem build_all_sections (n t h1 h2 h3 cp ps pn tc pr : JFields) :
    build_all (JFields.ofList
      [("normal", JVal.jobj n), ("title", JVal.jobj t), ("heading1", JVal.jobj h1),
       ("heading2", JVal.jobj h2), ("heading3", JVal.jobj h3), ("caption", JVal.jobj cp),
       ("pagesetup", JVal.jobj ps), ("pagenumber", JVal.jobj pn), ("toc", JVal.jobj tc),
       ("processing", JVal.jobj pr)]) =
    (do
      let normal ← build_style n
      let title ← build_style t
      let heading1 ← build_style h1
      let heading2 ← build_style h2
      let heading3 ← build_style h3
      let caption ← build_style cp
      let pagesetup ← build_pagesetup ps
      let pagenumber ← build_pagenumber pn
      let toc ← build_toc tc
      let processing ← build_processing pr
      some { normal, title, heading1, heading2, heading3, caption,
             pagesetup, pagenumber, toc, processing }) := by
  simp [build_all, getObj, JFields.ofList, JFields.get]

/-- Merging one style section over another (same key list, leaf values)
keeps exactly the incoming values. -/
theorem merge_styleToDict (d s : StyleConfig) :
    deep_merge (styleToDict d) (styleToDict s) = styleToDict s := by
  have := deep_merge_parallel
    [("font_name", JVal.jstr d.font_name, JVal.jstr s.font_name),
     ("font_size_pt", JVal.jfloat d.font_size_pt, JVal.jfloat s.font_size_pt),
     ("bold", JVal.jbool d.bold, JVal.jbool s.bold),
     ("italic", JVal.jbool d.italic, JVal.jbool s.italic),
     ("color_hex", optStrJ d.color_hex, optStrJ s.color_hex),
     ("line_spacing", JVal.jfloat d.line_spacing, JVal.jfloat s.line_spacing),
     ("space_before_pt", JVal.jfloat d.space_before_pt, JVal.jfloat s.space_before_pt),
     ("space_after_pt", JVal.jfloat d.space_after_pt, JVal.jfloat s.space_after_pt),
     ("first_line_indent_cm", JVal.jfloat d.first_line_indent_cm, JVal.jfloat s.first_line_indent_cm),
     ("alignment", JVal.jstr d.alignment, JVal.jstr s.alignment),
     ("keep_with_next", JVal.jbool d.keep_with_next, JVal.jbool s.keep_with_next),
     ("page_break_before", JVal.jbool d.page_break_before, JVal.jbool s.page_break_before)]
    (by simp)
  simpa [styleToDict, JFields.ofList, triplesA, triplesB, triplesM,
    mergeVal_jstr, mergeVal_jfloat, mergeVal_jbool, mergeVal_optStrJ] using this

/-- Merging one page-setup section over another keeps the incoming
values. -/
theorem merge_pagesetupToDict (d s : PageSetupConfig) :
    deep_merge (pagesetupToDict d) (pagesetupToDict s) = pagesetupToDict s := by
  have := deep_merge_parallel
    [("paper", JVal.jstr d.paper, JVal.jstr s.paper),
     ("margin_left_cm", JVal.jfloat d.margin_left_cm, JVal.jfloat s.margin_left_cm),
     ("margin_right_cm", JVal.jfloat d.margin_right_cm, JVal.jfloat s.margin_right_cm),
     ("margin_top_cm", JVal.jfloat d.margin_top_cm, JVal.jfloat s.margin_top_cm),
     ("margin_bottom_cm", JVal.jfloat d.margin_bottom_cm, JVal.jfloat s.margin_bottom_cm),
     ("header_distance_cm", JVal.jfloat d.header_distance_cm, JVal.jfloat s.header_distance_cm),
     ("footer_distance_cm", JVal.jfloat d.footer_distance_cm, JVal.jfloat s.footer_distance_cm),
     ("different_first_page", JVal.jbool d.different_first_page, JVal.jbool s.different_first_page)]
    (by simp)
  simpa [pagesetupToDict, JFields.ofList, triplesA, triplesB, triplesM,
    mergeVal_jstr, mergeVal_jfloat, mergeVal_jbool, mergeVal_jint] using this

/-- Merging one page-number section over another keeps the incoming
values. -/
theorem merge_pagenumberToDict (d s : PageNumberConfig) :
    deep_merge (pagenumberToDict d) (pagenumberToDict s) = pagenumberToDict s := by
  have := deep_merge_parallel
    [("enabled", JVal.jbool d.enabled, JVal.jbool s.enabled),
     ("position", JVal.jstr d.position, JVal.jstr s.position),
     ("template", JVal.jstr d.template, JVal.jstr s.template),
     ("start_at", JVal.jint d.start_at, JVal.jint s.start_at),
     ("restart_each_section", JVal.jbool d.restart_each_section, JVal.jbool s.restart_each_section),
     ("number_format", JVal.jstr d.number_format, JVal.jstr s.number_format),
     ("font_name", JVal.jstr d.font_name, JVal.jstr s.font_name),
     ("font_size_pt", JVal.jfloat d.font_size_pt, JVal.jfloat s.font_size_pt)]
    (by simp)
  simpa [pagenumberToDict, JFields.ofList, triplesA, triplesB, triplesM,
    mergeVal_jstr, mergeVal_jfloat, mergeVal_jbool, mergeVal_jint] using this

/-- Merging one TOC section over another keeps the incoming values. -/
theorem merge_tocToDict (d s : TocConfig) :
    deep_merge (tocToDict d) (tocToDict s) = tocToDict s := by
  have := deep_merge_parallel
    [("insert_toc", JVal.jbool d.insert_toc, JVal.jbool s.insert_toc),
     ("heading_levels", JVal.jstr d.heading_levels, JVal.jstr s.heading_levels),
     ("title", JVal.jstr d.title, JVal.jstr s.title),
     ("title_bold", JVal.jbool d.title_bold, JVal.jbool s.title_bold),
     ("title_font_size_pt", JVal.jfloat d.title_font_size_pt, JVal.jfloat s.title_font_size_pt),
     ("title_alignment", JVal.jstr d.title_alignment, JVal.jstr s.title_alignment)]
    (by simp)
  simpa [tocToDict, JFields.ofList, triplesA, triplesB, triplesM,
    mergeVal_jstr, mergeVal_jfloat, mergeVal_jbool, mergeVal_jint] using this

/-- Merging one processing section over another keeps the incoming
values. -/
theorem merge_processingToDict (d s : ProcessingConfig) :
    deep_merge (processingToDict d) (processingToDict s) = processingToDict s := by
  have := deep_merge_parallel
    [("force_run_font_everywhere", JVal.jbool d.force_run_font_everywhere, JVal.jbool s.force_run_font_everywhere),
     ("force_paragraph_format_everywhere", JVal.jbool d.force_paragraph_format_everywhere, JVal.jbool s.force_paragraph_format_everywhere),
     ("include_tables", JVal.jbool d.include_tables, JVal.jbool s.include_tables)]
    (by simp)
  simpa [processingToDict, JFields.ofList, triplesA, triplesB, triplesM,
    mergeVal_jstr, mergeVal_jfloat, mergeVal_jbool, mergeVal_jint] using this

set_option maxHeartbeats 1000000 in
/-- Rebuilding a style section from its own `asdict` image recovers
it. -/
theorem build_styleToDict (s : StyleConfig) : build_style (styleToDict s) = some s := by
  obtain ⟨x1, x2, x3, x4, x5, x6, x7, x8, x9, x10, x11, x12⟩ := s
  cases x5 <;>
    simp [styleToDict, JFields.ofList, build_style, JFields.keys,
      styleFields, getStr, getQ, getBool, getOptStr, optStrJ, JFields.get]

set_option maxHeartbeats 1000000 in
/-- Rebuilding the page-setup section from its `asdict` image. -/
theorem build_pagesetupToDict (s : PageSetupConfig) :
    build_pagesetup (pagesetupToDict s) = some s := by
  simp [pagesetupToDict, JFields.ofList, build_pagesetup, JFields.keys,
    pagesetupFields, getStr, getQ, getBool, JFields.get]

set_option maxHeartbeats 1000000 in
/-- Rebuilding the page-number section from its `asdict` image. -/
theorem build_pagenumberToDict (s : PageNumberConfig) :
    build_pagenumber (pagenumberToDict s) = some s := by
  simp [pagenumberToDict, JFields.ofList, build_pagenumber, JFields.keys,
    pagenumberFields, getStr, getQ, getBool, getInt, JFields.get]

set_option maxHeartbeats 1000000 in
/-- Rebuilding the TOC section from its `asdict` image. -/
theorem build_tocToDict (s : TocConfig) : build_toc (tocToDict s) = some s := by
  simp [tocToDict, JFields.ofList, build_toc, JFields.keys,
    tocFields, getStr, getQ, getBool, JFields.get]

set_option maxHeartbeats 1000000 in
/-- Rebuilding the processing section from its `asdict` image. -/
theorem build_processingToDict (s : ProcessingConfig) :
    build_processing (processingToDict s) = some s := by
  simp [processingToDict, JFields.ofList, build_processing, JFields.keys,
    processingFields, getBool, JFields.get]

/-- CLAIM C1: serializing a valid `ReportConfig` to JSON bytes with
`save_config_json_bytes` and deserializing them back with
`load_config_json_bytes` yields a configuration equal to the
original. -/
theorem config_roundtrip (c : ReportConfig) :
    load_config_json_bytes (save_config_json_bytes c) = some c := by
  show build_all (deep_merge (cfg_to_dict {}) (cfg_to_dict c)) = some c
  rw [merge_cfg_to_dict, build_all_sections]
  simp only [merge_styleToDict, merge_pagesetupToDict, merge_pagenumberToDict,
    merge_tocToDict, merge_processingToDict,
    build_styleToDict, build_pagesetupToDict, build_pagenumberToDict,
    build_tocToDict, build_processingToDict]
  rfl


/-! ## Further dictionary lemmas (for the merge and unknown-key claims)

`JFields` is part of a mutual inductive family, so these are stated as
structurally recursive theorems rather than via the `induction`
tactic. -/

theorem JFields.get_notin : ∀ (a : JFields) (k : String), k ∉ a.keys → a.get k = none
  | .nil, _, _ => rfl
  | .cons k' _ rest, k, h => by
    simp only [JFields.keys, List.mem_cons, not_or] at h
    simp only [JFields.get, if_neg (Ne.symm h.1)]
    exact JFields.get_notin rest k h.2

theorem JFields.get_set_self : ∀ (a : JFields) (k : String) (v : JVal),
    (a.set k v).get k = some v
  | .nil, k, v => by simp [JFields.set, JFields.get]
  | .cons k' v' rest, k, v => by
    by_cases hk : k' = k
    · simp [JFields.set, JFields.get, hk]
    · simp only [JFields.set, if_neg hk, JFields.get]
      exact JFields.get_set_self rest k v


theorem JFields.get_set_ne : ∀ (a : JFields) (key : String) (v : JVal) (k : String),
    ¬key = k → (a.set key v).get k = a.get k
  | .nil, key, v, k, h => by simp [JFields.set, JFields.get, h]
  | .cons k' v' rest, key, v, k, h => by
    by_cases hk : k' = key
    · subst hk
      simp [JFields.set, JFields.get, h]
    · simp only [JFields.set, if_neg hk, JFields.get]
      by_cases hk2 : k' = k
      · simp [hk2]
      · rw [if_neg hk2, if_neg hk2]
        exact JFields.get_set_ne rest key v k h

theorem JFields.set_notin : ∀ (a : JFields) (k : String) (v : JVal), k ∉ a.keys →
    a.set k v = a.append (.cons k v .nil)
  | .nil, k, v, _ => rfl
  | .cons k' v' rest, k, v, h => by
    simp only [JFields.keys, List.mem_cons, not_or] at h
    simp only [JFields.set, if_neg (Ne.symm h.1), JFields.append]
    rw [JFields.set_notin rest k v h.2]

theorem JFields.keys_append : ∀ (a b : JFields), (a.append b).keys = a.keys ++ b.keys
  | .nil, _ => rfl
  | .cons k v rest, b => by
    simp only [JFields.append, JFields.keys, List.cons_append]
    rw [JFields.keys_append rest b]

theorem JFields.get_append_left : ∀ (a b : JFields) (k : String) (v : JVal),
    a.get k = some v → (a.append b).get k = some v
  | .nil, _, _, _, h => by simp [JFields.get] at h
  | .cons k' v' rest, b, k, v, h => by
    by_cases hk : k' = k
    · simp_all [JFields.get, JFields.append]
    · simp only [JFields.get, if_neg hk, JFields.append] at h ⊢
      exact JFields.get_append_left rest b k v h

/-- When the key is not yet present (or in general when the current
value is not a dict together with the incoming one), a merge step is a
plain assignment. -/
theorem deep_merge_key_none (a : JFields) (k : String) (v : JVal)
    (h : a.get k = none) : deep_merge_key a k v = a.set k v := by
  cases v <;> simp [deep_merge_key, h]

theorem deep_merge_key_get_ne (a : JFields) (k' : String) (v' : JVal) (k : String)
    (h : ¬k' = k) : (deep_merge_key a k' v').get k = a.get k := by
  cases v' <;> simp only [deep_merge_key] <;>
    first
    | exact JFields.get_set_ne a k' _ k h
    | (rcases hx : a.get k' with _ | w
       · exact JFields.get_set_ne a k' _ k h
       · cases w <;> exact JFields.get_set_ne a k' _ k h)

/-- Keys untouched by the partial dict keep their current value across
the whole merge. -/
theorem deep_merge_get_notin : ∀ (b : JFields) (k : String), k ∉ b.keys →
    ∀ (a : JFields), (deep_merge a b).get k = a.get k
  | .nil, _, _, _ => rfl
  | .cons k' v' rest, k, h, a => by
    simp only [JFields.keys, List.mem_cons, not_or] at h
    simp only [deep_merge]
    rw [deep_merge_get_notin rest k h.2 (deep_merge_key a k' v')]
    exact deep_merge_key_get_ne a k' v' k (fun e => h.1 e.symm)

/-- CLAIM C7: deep-merging the empty mapping over the default
configuration mapping yields exactly the default mapping, and in
general every key absent from the partial mapping keeps the current
(default) value unchanged. -/
theorem deep_merge_defaults :
    deep_merge (cfg_to_dict {}) JFields.nil = cfg_to_dict {} ∧
    ∀ (a b : JFields) (k : String), k ∉ b.keys →
      (deep_merge a b).get k = a.get k := by
  refine ⟨rfl, ?_⟩
  intro a b k h
  exact deep_merge_get_notin b k h a

/-- Witness for C7 at a concrete partial mapping and key. -/
theorem deep_merge_defaults_witness :
    "normal" ∉ (JFields.cons "extra" (JVal.jint 7) JFields.nil).keys ∧
    (deep_merge (cfg_to_dict {}) (JFields.cons "extra" (JVal.jint 7) JFields.nil)).get "normal"
      = (cfg_to_dict {}).get "normal" :=
  ⟨by simp [JFields.keys],
   deep_merge_defaults.2 (cfg_to_dict {}) (JFields.cons "extra" (JVal.jint 7) JFields.nil)
     "normal" (by simp [JFields.keys])⟩
/-! ## Unknown configuration keys -/

/-- The ten section keys `cfg_from_dict` reads. -/
def topLevelKeys : List String :=
  ["normal", "title", "heading1", "heading2", "heading3", "caption",
   "pagesetup", "pagenumber", "toc", "processing"]

theorem keys_cfg_to_dict (c : ReportConfig) : (cfg_to_dict c).keys = topLevelKeys := rfl

/-- The builder `build_all` only looks at the ten section keys. -/
theorem build_all_congr (d1 d2 : JFields)
    (h : ∀ key, key ∈ topLevelKeys → d1.get key = d2.get key) :
    build_all d1 = build_all d2 := by
  simp only [build_all, getObj,
    h "normal" (by simp [topLevelKeys]), h "title" (by simp [topLevelKeys]),
    h "heading1" (by simp [topLevelKeys]), h "heading2" (by simp [topLevelKeys]),
    h "heading3" (by simp [topLevelKeys]), h "caption" (by simp [topLevelKeys]),
    h "pagesetup" (by simp [topLevelKeys]), h "pagenumber" (by simp [topLevelKeys]),
    h "toc" (by simp [topLevelKeys]), h "processing" (by simp [topLevelKeys])]

theorem build_all_defaults : build_all (cfg_to_dict {}) = some {} := rfl

/-- An unknown top-level key is kept by the merge and ignored by the
record constructors: the default configuration is produced. -/
theorem cfg_from_dict_unknown_top (k : String) (v : JVal) (h : k ∉ topLevelKeys) :
    cfg_from_dict (JFields.cons k v JFields.nil) = some {} ∧
    (deep_merge (cfg_to_dict {}) (JFields.cons k v JFields.nil)).get k = some v := by
  have hD : (cfg_to_dict ({} : ReportConfig)).get k = none :=
    JFields.get_notin _ k (by rw [keys_cfg_to_dict]; exact h)
  have hm : deep_merge (cfg_to_dict {}) (JFields.cons k v JFields.nil)
      = (cfg_to_dict ({} : ReportConfig)).set k v := by
    show deep_merge (deep_merge_key (cfg_to_dict {}) k v) JFields.nil = _
    rw [deep_merge_key_none _ _ _ hD]
    rfl
  constructor
  · show build_all (deep_merge (cfg_to_dict {}) (JFields.cons k v JFields.nil)) = some {}
    rw [hm, build_all_congr ((cfg_to_dict ({} : ReportConfig)).set k v) (cfg_to_dict {})
      (fun key hkey => JFields.get_set_ne _ k v key (fun e => h (e ▸ hkey))),
      build_all_defaults]
  · rw [hm]
    exact JFields.get_set_self _ k v
theorem styleToDict_keys (s : StyleConfig) : (styleToDict s).keys = styleFields := rfl

theorem pagesetupToDict_keys (s : PageSetupConfig) :
    (pagesetupToDict s).keys = pagesetupFields := rfl

theorem pagenumberToDict_keys (s : PageNumberConfig) :
    (pagenumberToDict s).keys = pagenumberFields := rfl

theorem tocToDict_keys (s : TocConfig) : (tocToDict s).keys = tocFields := rfl

theorem processingToDict_keys (s : ProcessingConfig) :
    (processingToDict s).keys = processingFields := rfl

/-- Which record fields each of the ten sections accepts. -/
def sectionFieldTable : List (String × List String) :=
  [("normal", styleFields), ("title", styleFields), ("heading1", styleFields),
   ("heading2", styleFields), ("heading3", styleFields), ("caption", styleFields),
   ("pagesetup", pagesetupFields), ("pagenumber", pagenumberFields),
   ("toc", tocFields), ("processing", processingFields)]
/-- An unknown key inside a known nested section makes the record
constructor fail, so no configuration is produced. -/
theorem cfg_from_dict_unknown_nested (sec k2 : String) (v2 : JVal)
    (fields : List String) (hsec : (sec, fields) ∈ sectionFieldTable)
    (hk2 : k2 ∉ fields) :
    cfg_from_dict (JFields.cons sec (JVal.jobj (JFields.cons k2 v2 JFields.nil)) JFields.nil) = none := by
  simp only [sectionFieldTable, List.mem_cons, List.not_mem_nil, or_false,
    Prod.mk.injEq] at hsec
  rcases hsec with hs | hs | hs | hs | hs | hs | hs | hs | hs | hs
  · -- section "normal"
    obtain ⟨rfl, rfl⟩ := hs
    have h1 : (styleToDict (({} : ReportConfig)).normal).get k2 = none :=
      JFields.get_notin _ _ (by rw [styleToDict_keys]; exact hk2)
    have hbad : build_style ((styleToDict (({} : ReportConfig)).normal).set k2 v2) = none := by
      rw [JFields.set_notin _ _ _ (by rw [styleToDict_keys]; exact hk2)]
      have hcond : (((styleToDict (({} : ReportConfig)).normal).append
          (JFields.cons k2 v2 JFields.nil)).keys).all (fun k => styleFields.contains k) = false := by
        rw [JFields.keys_append, styleToDict_keys]
        simp [JFields.keys, hk2]
      simp only [build_style, hcond]
      simp
    have hmerge : deep_merge (cfg_to_dict {})
          (JFields.cons "normal" (JVal.jobj (JFields.cons k2 v2 JFields.nil)) JFields.nil)
        = (cfg_to_dict ({} : ReportConfig)).set "normal"
            (JVal.jobj ((styleToDict (({} : ReportConfig)).normal).set k2 v2)) := by
      show deep_merge (deep_merge_key (cfg_to_dict {}) "normal"
        (JVal.jobj (JFields.cons k2 v2 JFields.nil))) JFields.nil = _
      have hstep : deep_merge_key (cfg_to_dict {}) "normal" (JVal.jobj (JFields.cons k2 v2 JFields.nil))
          = (cfg_to_dict ({} : ReportConfig)).set "normal"
              (JVal.jobj (deep_merge (styleToDict (({} : ReportConfig)).normal) (JFields.cons k2 v2 JFields.nil))) := by
        simp [deep_merge_key, cfg_to_dict, JFields.ofList, JFields.get]
      rw [hstep]
      have hinner : deep_merge (styleToDict (({} : ReportConfig)).normal) (JFields.cons k2 v2 JFields.nil)
          = (styleToDict (({} : ReportConfig)).normal).set k2 v2 := by
        show deep_merge (deep_merge_key (styleToDict (({} : ReportConfig)).normal) k2 v2) JFields.nil = _
        rw [deep_merge_key_none _ k2 v2 h1]
        rfl
      rw [hinner]
      rfl
    show build_all (deep_merge (cfg_to_dict {}) _) = none
    rw [hmerge]
    generalize hx : (styleToDict (({} : ReportConfig)).normal).set k2 v2 = badS at hbad ⊢
    simp [build_all, getObj, cfg_to_dict, JFields.ofList, JFields.set, JFields.get,
      build_styleToDict, build_pagesetupToDict, build_pagenumberToDict,
      build_tocToDict, build_processingToDict, hbad]
  · -- section "title"
    obtain ⟨rfl, rfl⟩ := hs
    have h1 : (styleToDict (({} : ReportConfig)).title).get k2 = none :=
      JFields.get_notin _ _ (by rw [styleToDict_keys]; exact hk2)
    have hbad : build_style ((styleToDict (({} : ReportConfig)).title).set k2 v2) = none := by
      rw [JFields.set_notin _ _ _ (by rw [styleToDict_keys]; exact hk2)]
      have hcond : (((styleToDict (({} : ReportConfig)).title).append
          (JFields.cons k2 v2 JFields.nil)).keys).all (fun k => styleFields.contains k) = false := by
        rw [JFields.keys_append, styleToDict_keys]
        simp [JFields.keys, hk2]
      simp only [build_style, hcond]
      simp
    have hmerge : deep_merge (cfg_to_dict {})
          (JFields.cons "title" (JVal.jobj (JFields.cons k2 v2 JFields.nil)) JFields.nil)
        = (cfg_to_dict ({} : ReportConfig)).set "title"
            (JVal.jobj ((styleToDict (({} : ReportConfig)).title).set k2 v2)) := by
      show deep_merge (deep_merge_key (cfg_to_dict {}) "title"
        (JVal.jobj (JFields.cons k2 v2 JFields.nil))) JFields.nil = _
      have hstep : deep_merge_key (cfg_to_dict {}) "title" (JVal.jobj (JFields.cons k2 v2 JFields.nil))
          = (cfg_to_dict ({} : ReportConfig)).set "title"
              (JVal.jobj (deep_merge (styleToDict (({} : ReportConfig)).title) (JFields.cons k2 v2 JFields.nil))) := by
        simp [deep_merge_key, cfg_to_dict, JFields.ofList, JFields.get]
      rw [hstep]
      have hinner : deep_merge (styleToDict (({} : ReportConfig)).title) (JFields.cons k2 v2 JFields.nil)
          = (styleToDict (({} : ReportConfig)).title).set k2 v2 := by
        show deep_merge (deep_merge_key (styleToDict (({} : ReportConfig)).title) k2 v2) JFields.nil = _
        rw [deep_merge_key_none _ k2 v2 h1]
        rfl
      rw [hinner]
      rfl
    show build_all (deep_merge (cfg_to_dict {}) _) = none
    rw [hmerge]
    generalize hx : (styleToDict (({} : ReportConfig)).title).set k2 v2 = badS at hbad ⊢
    simp [build_all, getObj, cfg_to_dict, JFields.ofList, JFields.set, JFields.get,
      build_styleToDict, build_pagesetupToDict, build_pagenumberToDict,
      build_tocToDict, build_processingToDict, hbad]
  · -- section "heading1"
    obtain ⟨rfl, rfl⟩ := hs
    have h1 : (styleToDict (({} : ReportConfig)).heading1).get k2 = none :=
      JFields.get_notin _ _ (by rw [styleToDict_keys]; exact hk2)
    have hbad : build_style ((styleToDict (({} : ReportConfig)).heading1).set k2 v2) = none := by
      rw [JFields.set_notin _ _ _ (by rw [styleToDict_keys]; exact hk2)]
      have hcond : (((styleToDict (({} : ReportConfig)).heading1).append
          (JFields.cons k2 v2 JFields.nil)).keys).all (fun k => styleFields.contains k) = false := by
        rw [JFields.keys_append, styleToDict_keys]
        simp [JFields.keys, hk2]
      simp only [build_style, hcond]
      simp
    have hmerge : deep_merge (cfg_to_dict {})
          (JFields.cons "heading1" (JVal.jobj (JFields.cons k2 v2 JFields.nil)) JFields.nil)
        = (cfg_to_dict ({} : ReportConfig)).set "heading1"
            (JVal.jobj ((styleToDict (({} : ReportConfig)).heading1).set k2 v2)) := by
      show deep_merge (deep_merge_key (cfg_to_dict {}) "heading1"
        (JVal.jobj (JFields.cons k2 v2 JFields.nil))) JFields.nil = _
      have hstep : deep_merge_key (cfg_to_dict {}) "heading1" (JVal.jobj (JFields.cons k2 v2 JFields.nil))
          = (cfg_to_dict ({} : ReportConfig)).set "heading1"
              (JVal.jobj (deep_merge (styleToDict (({} : ReportConfig)).heading1) (JFields.cons k2 v2 JFields.nil))) := by
        simp [deep_merge_key, cfg_to_dict, JFields.ofList, JFields.get]
      rw [hstep]
      have hinner : deep_merge (styleToDict (({} : ReportConfig)).heading1) (JFields.cons k2 v2 JFields.nil)
          = (styleToDict (({} : ReportConfig)).heading1).set k2 v2 := by
        show deep_merge (deep_merge_key (styleToDict (({} : ReportConfig)).heading1) k2 v2) JFields.nil = _
        rw [deep_merge_key_none _ k2 v2 h1]
        rfl
      rw [hinner]
      rfl
    show build_all (deep_merge (cfg_to_dict {}) _) = none
    rw [hmerge]
    generalize hx : (styleToDict (({} : ReportConfig)).heading1).set k2 v2 = badS at hbad ⊢
    simp [build_all, getObj, cfg_to_dict, JFields.ofList, JFields.set, JFields.get,
      build_styleToDict, build_pagesetupToDict, build_pagenumberToDict,
      build_tocToDict, build_processingToDict, hbad]
  · -- section "heading2"
    obtain ⟨rfl, rfl⟩ := hs
    have h1 : (styleToDict (({} : ReportConfig)).heading2).get k2 = none :=
      JFields.get_notin _ _ (by rw [styleToDict_keys]; exact hk2)
    have hbad : build_style ((styleToDict (({} : ReportConfig)).heading2).set k2 v2) = none := by
      rw [JFields.set_notin _ _ _ (by rw [styleToDict_keys]; exact hk2)]
      have hcond : (((styleToDict (({} : ReportConfig)).heading2).append
          (JFields.cons k2 v2 JFields.nil)).keys).all (fun k => styleFields.contains k) = false := by
        rw [JFields.keys_append, styleToDict_keys]
        simp [JFields.keys, hk2]
      simp only [build_style, hcond]
      simp
    have hmerge : deep_merge (cfg_to_dict {})
          (JFields.cons "heading2" (JVal.jobj (JFields.cons k2 v2 JFields.nil)) JFields.nil)
        = (cfg_to_dict ({} : ReportConfig)).set "heading2"
            (JVal.jobj ((styleToDict (({} : ReportConfig)).heading2).set k2 v2)) := by
      show deep_merge (deep_merge_key (cfg_to_dict {}) "heading2"
        (JVal.jobj (JFields.cons k2 v2 JFields.nil))) JFields.nil = _
      have hstep : deep_merge_key (cfg_to_dict {}) "heading2" (JVal.jobj (JFields.cons k2 v2 JFields.nil))
          = (cfg_to_dict ({} : ReportConfig)).set "heading2"
              (JVal.jobj (deep_merge (styleToDict (({} : ReportConfig)).heading2) (JFields.cons k2 v2 JFields.nil))) := by
        simp [deep_merge_key, cfg_to_dict, JFields.ofList, JFields.get]
      rw [hstep]
      have hinner : deep_merge (styleToDict (({} : ReportConfig)).heading2) (JFields.cons k2 v2 JFields.nil)
          = (styleToDict (({} : ReportConfig)).heading2).set k2 v2 := by
        show deep_merge (deep_merge_key (styleToDict (({} : ReportConfig)).heading2) k2 v2) JFields.nil = _
        rw [deep_merge_key_none _ k2 v2 h1]
        rfl
      rw [hinner]
      rfl
    show build_all (deep_merge (cfg_to_dict {}) _) = none
    rw [hmerge]
    generalize hx : (styleToDict (({} : ReportConfig)).heading2).set k2 v2 = badS at hbad ⊢
    simp [build_all, getObj, cfg_to_dict, JFields.ofList, JFields.set, JFields.get,
      build_styleToDict, build_pagesetupToDict, build_pagenumberToDict,
      build_tocToDict, build_processingToDict, hbad]
  · -- section "heading3"
    obtain ⟨rfl, rfl⟩ := hs
    have h1 : (styleToDict (({} : ReportConfig)).heading3).get k2 = none :=
      JFields.get_notin _ _ (by rw [styleToDict_keys]; exact hk2)
    have hbad : build_style ((styleToDict (({} : ReportConfig)).heading3).set k2 v2) = none := by
      rw [JFields.set_notin _ _ _ (by rw [styleToDict_keys]; exact hk2)]
      have hcond : (((styleToDict (({} : ReportConfig)).heading3).append
          (JFields.cons k2 v2 JFields.nil)).keys).all (fun k => styleFields.contains k) = false := by
        rw [JFields.keys_append, styleToDict_keys]
        simp [JFields.keys, hk2]
      simp only [build_style, hcond]
      simp
    have hmerge : deep_merge (cfg_to_dict {})
          (JFields.cons "heading3" (JVal.jobj (JFields.cons k2 v2 JFields.nil)) JFields.nil)
        = (cfg_to_dict ({} : ReportConfig)).set "heading3"
            (JVal.jobj ((styleToDict (({} : ReportConfig)).heading3).set k2 v2)) := by
      show deep_merge (deep_merge_key (cfg_to_dict {}) "heading3"
        (JVal.jobj (JFields.cons k2 v2 JFields.nil))) JFields.nil = _
      have hstep : deep_merge_key (cfg_to_dict {}) "heading3" (JVal.jobj (JFields.cons k2 v2 JFields.nil))
          = (cfg_to_dict ({} : ReportConfig)).set "heading3"
              (JVal.jobj (deep_merge (styleToDict (({} : ReportConfig)).heading3) (JFields.cons k2 v2 JFields.nil))) := by
        simp [deep_merge_key, cfg_to_dict, JFields.ofList, JFields.get]
      rw [hstep]
      have hinner : deep_merge (styleToDict (({} : ReportConfig)).heading3) (JFields.cons k2 v2 JFields.nil)
          = (styleToDict (({} : ReportConfig)).heading3).set k2 v2 := by
        show deep_merge (deep_merge_key (styleToDict (({} : ReportConfig)).heading3) k2 v2) JFields.nil = _
        rw [deep_merge_key_none _ k2 v2 h1]
        rfl
      rw [hinner]
      rfl
    show build_all (deep_merge (cfg_to_dict {}) _) = none
    rw [hmerge]
    generalize hx : (styleToDict (({} : ReportConfig)).heading3).set k2 v2 = badS at hbad ⊢
    simp [build_all, getObj, cfg_to_dict, JFields.ofList, JFields.set, JFields.get,
      build_styleToDict, build_pagesetupToDict, build_pagenumberToDict,
      build_tocToDict, build_processingToDict, hbad]
  · -- section "caption"
    obtain ⟨rfl, rfl⟩ := hs
    have h1 : (styleToDict (({} : ReportConfig)).caption).get k2 = none :=
      JFields.get_notin _ _ (by rw [styleToDict_keys]; exact hk2)
    have hbad : build_style ((styleToDict (({} : ReportConfig)).caption).set k2 v2) = none := by
      rw [JFields.set_notin _ _ _ (by rw [styleToDict_keys]; exact hk2)]
      have hcond : (((styleToDict (({} : ReportConfig)).caption).append
          (JFields.cons k2 v2 JFields.nil)).keys).all (fun k => styleFields.contains k) = false := by
        rw [JFields.keys_append, styleToDict_keys]
        simp [JFields.keys, hk2]
      simp only [build_style, hcond]
      simp
    have hmerge : deep_merge (cfg_to_dict {})
          (JFields.cons "caption" (JVal.jobj (JFields.cons k2 v2 JFields.nil)) JFields.nil)
        = (cfg_to_dict ({} : ReportConfig)).set "caption"
            (JVal.jobj ((styleToDict (({} : ReportConfig)).caption).set k2 v2)) := by
      show deep_merge (deep_merge_key (cfg_to_dict {}) "caption"
        (JVal.jobj (JFields.cons k2 v2 JFields.nil))) JFields.nil = _
      have hstep : deep_merge_key (cfg_to_dict {}) "caption" (JVal.jobj (JFields.cons k2 v2 JFields.nil))
          = (cfg_to_dict ({} : ReportConfig)).set "caption"
              (JVal.jobj (deep_merge (styleToDict (({} : ReportConfig)).caption) (JFields.cons k2 v2 JFields.nil))) := by
        simp [deep_merge_key, cfg_to_dict, JFields.ofList, JFields.get]
      rw [hstep]
      have hinner : deep_merge (styleToDict (({} : ReportConfig)).caption) (JFields.cons k2 v2 JFields.nil)
          = (styleToDict (({} : ReportConfig)).caption).set k2 v2 := by
        show deep_merge (deep_merge_key (styleToDict (({} : ReportConfig)).caption) k2 v2) JFields.nil = _
        rw [deep_merge_key_none _ k2 v2 h1]
        rfl
      rw [hinner]
      rfl
    show build_all (deep_merge (cfg_to_dict {}) _) = none
    rw [hmerge]
    generalize hx : (styleToDict (({} : ReportConfig)).caption).set k2 v2 = badS at hbad ⊢
    simp [build_all, getObj, cfg_to_dict, JFields.ofList, JFields.set, JFields.get,
      build_styleToDict, build_pagesetupToDict, build_pagenumberToDict,
      build_tocToDict, build_processingToDict, hbad]
  · -- section "pagesetup"
    obtain ⟨rfl, rfl⟩ := hs
    have h1 : (pagesetupToDict (({} : ReportConfig)).pagesetup).get k2 = none :=
      JFields.get_notin _ _ (by rw [pagesetupToDict_keys]; exact hk2)
    have hbad : build_pagesetup ((pagesetupToDict (({} : ReportConfig)).pagesetup).set k2 v2) = none := by
      rw [JFields.set_notin _ _ _ (by rw [pagesetupToDict_keys]; exact hk2)]
      have hcond : (((pagesetupToDict (({} : ReportConfig)).pagesetup).append
          (JFields.cons k2 v2 JFields.nil)).keys).all (fun k => pagesetupFields.contains k) = false := by
        rw [JFields.keys_append, pagesetupToDict_keys]
        simp [JFields.keys, hk2]
      simp only [build_pagesetup, hcond]
      simp
    have hmerge : deep_merge (cfg_to_dict {})
          (JFields.cons "pagesetup" (JVal.jobj (JFields.cons k2 v2 JFields.nil)) JFields.nil)
        = (cfg_to_dict ({} : ReportConfig)).set "pagesetup"
            (JVal.jobj ((pagesetupToDict (({} : ReportConfig)).pagesetup).set k2 v2)) := by
      show deep_merge (deep_merge_key (cfg_to_dict {}) "pagesetup"
        (JVal.jobj (JFields.cons k2 v2 JFields.nil))) JFields.nil = _
      have hstep : deep_merge_key (cfg_to_dict {}) "pagesetup" (JVal.jobj (JFields.cons k2 v2 JFields.nil))
          = (cfg_to_dict ({} : ReportConfig)).set "pagesetup"
              (JVal.jobj (deep_merge (pagesetupToDict (({} : ReportConfig)).pagesetup) (JFields.cons k2 v2 JFields.nil))) := by
        simp [deep_merge_key, cfg_to_dict, JFields.ofList, JFields.get]
      rw [hstep]
      have hinner : deep_merge (pagesetupToDict (({} : ReportConfig)).pagesetup) (JFields.cons k2 v2 JFields.nil)
          = (pagesetupToDict (({} : ReportConfig)).pagesetup).set k2 v2 := by
        show deep_merge (deep_merge_key (pagesetupToDict (({} : ReportConfig)).pagesetup) k2 v2) JFields.nil = _
        rw [deep_merge_key_none _ k2 v2 h1]
        rfl
      rw [hinner]
      rfl
    show build_all (deep_merge (cfg_to_dict {}) _) = none
    rw [hmerge]
    generalize hx : (pagesetupToDict (({} : ReportConfig)).pagesetup).set k2 v2 = badS at hbad ⊢
    simp [build_all, getObj, cfg_to_dict, JFields.ofList, JFields.set, JFields.get,
      build_styleToDict, build_pagesetupToDict, build_pagenumberToDict,
      build_tocToDict, build_processingToDict, hbad]
  · -- section "pagenumber"
    obtain ⟨rfl, rfl⟩ := hs
    have h1 : (pagenumberToDict (({} : ReportConfig)).pagenumber).get k2 = none :=
      JFields.get_notin _ _ (by rw [pagenumberToDict_keys]; exact hk2)
    have hbad : build_pagenumber ((pagenumberToDict (({} : ReportConfig)).pagenumber).set k2 v2) = none := by
      rw [JFields.set_notin _ _ _ (by rw [pagenumberToDict_keys]; exact hk2)]
      have hcond : (((pagenumberToDict (({} : ReportConfig)).pagenumber).append
          (JFields.cons k2 v2 JFields.nil)).keys).all (fun k => pagenumberFields.contains k) = false := by
        rw [JFields.keys_append, pagenumberToDict_keys]
        simp [JFields.keys, hk2]
      simp only [build_pagenumber, hcond]
      simp
    have hmerge : deep_merge (cfg_to_dict {})
          (JFields.cons "pagenumber" (JVal.jobj (JFields.cons k2 v2 JFields.nil)) JFields.nil)
        = (cfg_to_dict ({} : ReportConfig)).set "pagenumber"
            (JVal.jobj ((pagenumberToDict (({} : ReportConfig)).pagenumber).set k2 v2)) := by
      show deep_merge (deep_merge_key (cfg_to_dict {}) "pagenumber"
        (JVal.jobj (JFields.cons k2 v2 JFields.nil))) JFields.nil = _
      have hstep : deep_merge_key (cfg_to_dict {}) "pagenumber" (JVal.jobj (JFields.cons k2 v2 JFields.nil))
          = (cfg_to_dict ({} : ReportConfig)).set "pagenumber"
              (JVal.jobj (deep_merge (pagenumberToDict (({} : ReportConfig)).pagenumber) (JFields.cons k2 v2 JFields.nil))) := by
        simp [deep_merge_key, cfg_to_dict, JFields.ofList, JFields.get]
      rw [hstep]
      have hinner : deep_merge (pagenumberToDict (({} : ReportConfig)).pagenumber) (JFields.cons k2 v2 JFields.nil)
          = (pagenumberToDict (({} : ReportConfig)).pagenumber).set k2 v2 := by
        show deep_merge (deep_merge_key (pagenumberToDict (({} : ReportConfig)).pagenumber) k2 v2) JFields.nil = _
        rw [deep_merge_key_none _ k2 v2 h1]
        rfl
      rw [hinner]
      rfl
    show build_all (deep_merge (cfg_to_dict {}) _) = none
    rw [hmerge]
    generalize hx : (pagenumberToDict (({} : ReportConfig)).pagenumber).set k2 v2 = badS at hbad ⊢
    simp [build_all, getObj, cfg_to_dict, JFields.ofList, JFields.set, JFields.get,
      build_styleToDict, build_pagesetupToDict, build_pagenumberToDict,
      build_tocToDict, build_processingToDict, hbad]
  · -- section "toc"
    obtain ⟨rfl, rfl⟩ := hs
    have h1 : (tocToDict (({} : ReportConfig)).toc).get k2 = none :=
      JFields.get_notin _ _ (by rw [tocToDict_keys]; exact hk2)
    have hbad : build_toc ((tocToDict (({} : ReportConfig)).toc).set k2 v2) = none := by
      rw [JFields.set_notin _ _ _ (by rw [tocToDict_keys]; exact hk2)]
      have hcond : (((tocToDict (({} : ReportConfig)).toc).append
          (JFields.cons k2 v2 JFields.nil)).keys).all (fun k => tocFields.contains k) = false := by
        rw [JFields.keys_append, tocToDict_keys]
        simp [JFields.keys, hk2]
      simp only [build_toc, hcond]
      simp
    have hmerge : deep_merge (cfg_to_dict {})
          (JFields.cons "toc" (JVal.jobj (JFields.cons k2 v2 JFields.nil)) JFields.nil)
        = (cfg_to_dict ({} : ReportConfig)).set "toc"
            (JVal.jobj ((tocToDict (({} : ReportConfig)).toc).set k2 v2)) := by
      show deep_merge (deep_merge_key (cfg_to_dict {}) "toc"
        (JVal.jobj (JFields.cons k2 v2 JFields.nil))) JFields.nil = _
      have hstep : deep_merge_key (cfg_to_dict {}) "toc" (JVal.jobj (JFields.cons k2 v2 JFields.nil))
          = (cfg_to_dict ({} : ReportConfig)).set "toc"
              (JVal.jobj (deep_merge (tocToDict (({} : ReportConfig)).toc) (JFields.cons k2 v2 JFields.nil))) := by
        simp [deep_merge_key, cfg_to_dict, JFields.ofList, JFields.get]
      rw [hstep]
      have hinner : deep_merge (tocToDict (({} : ReportConfig)).toc) (JFields.cons k2 v2 JFields.nil)
          = (tocToDict (({} : ReportConfig)).toc).set k2 v2 := by
        show deep_merge (deep_merge_key (tocToDict (({} : ReportConfig)).toc) k2 v2) JFields.nil = _
        rw [deep_merge_key_none _ k2 v2 h1]
        rfl
      rw [hinner]
      rfl
    show build_all (deep_merge (cfg_to_dict {}) _) = none
    rw [hmerge]
    generalize hx : (tocToDict (({} : ReportConfig)).toc).set k2 v2 = badS at hbad ⊢
    simp [build_all, getObj, cfg_to_dict, JFields.ofList, JFields.set, JFields.get,
      build_styleToDict, build_pagesetupToDict, build_pagenumberToDict,
      build_tocToDict, build_processingToDict, hbad]
  · -- section "processing"
    obtain ⟨rfl, rfl⟩ := hs
    have h1 : (processingToDict (({} : ReportConfig)).processing).get k2 = none :=
      JFields.get_notin _ _ (by rw [processingToDict_keys]; exact hk2)
    have hbad : build_processing ((processingToDict (({} : ReportConfig)).processing).set k2 v2) = none := by
      rw [JFields.set_notin _ _ _ (by rw [processingToDict_keys]; exact hk2)]
      have hcond : (((processingToDict (({} : ReportConfig)).processing).append
          (JFields.cons k2 v2 JFields.nil)).keys).all (fun k => processingFields.contains k) = false := by
        rw [JFields.keys_append, processingToDict_keys]
        simp [JFields.keys, hk2]
      simp only [build_processing, hcond]
      simp
    have hmerge : deep_merge (cfg_to_dict {})
          (JFields.cons "processing" (JVal.jobj (JFields.cons k2 v2 JFields.nil)) JFields.nil)
        = (cfg_to_dict ({} : ReportConfig)).set "processing"
            (JVal.jobj ((processingToDict (({} : ReportConfig)).processing).set k2 v2)) := by
      show deep_merge (deep_merge_key (cfg_to_dict {}) "processing"
        (JVal.jobj (JFields.cons k2 v2 JFields.nil))) JFields.nil = _
      have hstep : deep_merge_key (cfg_to_dict {}) "processing" (JVal.jobj (JFields.cons k2 v2 JFields.nil))
          = (cfg_to_dict ({} : ReportConfig)).set "processing"
              (JVal.jobj (deep_merge (processingToDict (({} : ReportConfig)).processing) (JFields.cons k2 v2 JFields.nil))) := by
        simp [deep_merge_key, cfg_to_dict, JFields.ofList, JFields.get]
      rw [hstep]
      have hinner : deep_merge (processingToDict (({} : ReportConfig)).processing) (JFields.cons k2 v2 JFields.nil)
          = (processingToDict (({} : ReportConfig)).processing).set k2 v2 := by
        show deep_merge (deep_merge_key (processingToDict (({} : ReportConfig)).processing) k2 v2) JFields.nil = _
        rw [deep_merge_key_none _ k2 v2 h1]
        rfl
      rw [hinner]
      rfl
    show build_all (deep_merge (cfg_to_dict {}) _) = none
    rw [hmerge]
    generalize hx : (processingToDict (({} : ReportConfig)).processing).set k2 v2 = badS at hbad ⊢
    simp [build_all, getObj, cfg_to_dict, JFields.ofList, JFields.set, JFields.get,
      build_styleToDict, build_pagesetupToDict, build_pagenumberToDict,
      build_tocToDict, build_processingToDict, hbad]
/-- CLAIM C10: a top-level key that is not one of the ten known section
keys is carried through the merge but silently ignored (a valid default
configuration is still produced), whereas an unknown key inside any of
the ten known nested sections makes record construction fail, so
loading produces no configuration. -/
theorem unknown_key_behavior :
    (∀ (k : String) (v : JVal), k ∉ topLevelKeys →
      cfg_from_dict (JFields.cons k v JFields.nil) = some {} ∧
      (deep_merge (cfg_to_dict {}) (JFields.cons k v JFields.nil)).get k = some v) ∧
    (∀ (sec k2 : String) (v2 : JVal) (fields : List String),
      (sec, fields) ∈ sectionFieldTable → k2 ∉ fields →
      cfg_from_dict (JFields.cons sec (JVal.jobj (JFields.cons k2 v2 JFields.nil)) JFields.nil)
        = none) :=
  ⟨fun k v h => cfg_from_dict_unknown_top k v h,
   fun sec k2 v2 fields hsec hk2 => cfg_from_dict_unknown_nested sec k2 v2 fields hsec hk2⟩

/-- Witness for C10 at concrete unknown keys. -/
theorem unknown_key_behavior_witness :
    ("custom" ∉ topLevelKeys ∧
      cfg_from_dict (JFields.cons "custom" (JVal.jint 5) JFields.nil) = some {} ∧
      (deep_merge (cfg_to_dict {}) (JFields.cons "custom" (JVal.jint 5) JFields.nil)).get "custom"
        = some (JVal.jint 5)) ∧
    (("toc", tocFields) ∈ sectionFieldTable ∧ "custom" ∉ tocFields ∧
      cfg_from_dict (JFields.cons "toc"
        (JVal.jobj (JFields.cons "custom" (JVal.jint 5) JFields.nil)) JFields.nil) = none) :=
  ⟨⟨by simp [topLevelKeys],
    (unknown_key_behavior.1 "custom" (JVal.jint 5) (by simp [topLevelKeys])).1,
    (unknown_key_behavior.1 "custom" (JVal.jint 5) (by simp [topLevelKeys])).2⟩,
   ⟨by simp [sectionFieldTable], by simp [tocFields],
    unknown_key_behavior.2 "toc" "custom" (JVal.jint 5) tocFields
      (by simp [sectionFieldTable]) (by simp [tocFields])⟩⟩
/-! ## Template tokenization (`DocxReportFormatter._split_template`)

The index-based scanning loop is translated over the remaining suffix
of the character list, with a fuel argument bounded by the template
length; every iteration consumes at least one character, so the fuel
never runs out on the actual call. -/

/-- The page-number placeholder literal `"{PAGE}"`. -/
def PAGE_PLACEHOLDER : String := "\x7bPAGE\x7d"

/-- The total-page-count placeholder literal `"{NUMPAGES}"`. -/
def NUMPAGES_PLACEHOLDER : String := "\x7bNUMPAGES\x7d"

/-- Whether a placeholder starts at the current position
(`template.startswith("{PAGE}", j) or template.startswith("{NUMPAGES}", j)`). -/
def isPh (cs : List Char) : Bool :=
  PAGE_PLACEHOLDER.toList.isPrefixOf cs || NUMPAGES_PLACEHOLDER.toList.isPrefixOf cs

/-- The inner `while` loop of `_split_template`: the characters from
the current position up to (excluding) the next placeholder start. -/
def takeLit : List Char → List Char
  | [] => []
  | c :: rest => if isPh (c :: rest) then [] else c :: takeLit rest

/-- The outer `while` loop of `_split_template`. -/
def splitTemplateGo : ℕ → List Char → List String
  | 0, _ => []
  | _ + 1, [] => []
  | fuel + 1, c :: rest =>
    if PAGE_PLACEHOLDER.toList.isPrefixOf (c :: rest) then
      PAGE_PLACEHOLDER ::
        splitTemplateGo fuel ((c :: rest).drop PAGE_PLACEHOLDER.toList.length)
    else if NUMPAGES_PLACEHOLDER.toList.isPrefixOf (c :: rest) then
      NUMPAGES_PLACEHOLDER ::
        splitTemplateGo fuel ((c :: rest).drop NUMPAGES_PLACEHOLDER.toList.length)
    else
      String.mk (c :: takeLit rest) ::
        splitTemplateGo fuel ((c :: rest).drop (c :: takeLit rest).length)

/-- Models `DocxReportFormatter._split_template(template)`. -/
def split_template (template : String) : List String :=
  splitTemplateGo template.toList.length template.toList

example : split_template "Trang \x7bPAGE\x7d/\x7bNUMPAGES\x7d"
    = ["Trang ", "\x7bPAGE\x7d", "/", "\x7bNUMPAGES\x7d"] := by decide

example : split_template "Page \x7bPAGE\x7d of \x7bNUMPAGES\x7d - end"
    = ["Page ", "\x7bPAGE\x7d", " of ", "\x7bNUMPAGES\x7d", " - end"] := by decide

theorem splitTemplateGo_nil : ∀ (fuel : ℕ), splitTemplateGo fuel [] = []
  | 0 => rfl
  | _ + 1 => rfl

theorem takeLit_prefix_list : ∀ (l : List Char), takeLit l <+: l
  | [] => List.nil_prefix
  | c :: rest => by
    unfold takeLit
    split
    · exact List.nil_prefix
    · exact List.cons_prefix_cons.mpr ⟨rfl, takeLit_prefix_list rest⟩

theorem takeLit_append_drop : ∀ (l : List Char),
    takeLit l ++ l.drop (takeLit l).length = l
  | [] => rfl
  | c :: rest => by
    unfold takeLit
    split
    · rfl
    · simp only [List.length_cons, List.cons_append, List.drop_succ_cons]
      rw [takeLit_append_drop rest]

theorem front_append_drop {p l : List Char} (h : p <+: l) :
    p ++ l.drop p.length = l := by
  obtain ⟨t, rfl⟩ := h
  rw [List.drop_left]

/-- Decomposing an occurrence inside `c :: l`: it is either at the very
front or wholly inside `l`. -/
theorem sub_cons_cases (p : List Char) (c : Char) (l : List Char)
    (h : p <:+: c :: l) : p <+: c :: l ∨ p <:+: l := by
  obtain ⟨s, t, hst⟩ := h
  cases s with
  | nil => exact Or.inl ⟨t, hst⟩
  | cons x s2 =>
    right
    rw [List.cons_append, List.cons_append] at hst
    injection hst with _ h2
    exact ⟨s2, t, h2⟩

theorem sub_of_sub_tail (p : List Char) (c : Char) (l : List Char)
    (h : p <:+: l) : p <:+: c :: l := by
  obtain ⟨s, t, rfl⟩ := h
  exact ⟨c :: s, t, rfl⟩

/-- No placeholder occurs anywhere inside what the literal loop
collects. -/
theorem no_ph_in_takeLit (p : List Char) (hne : p ≠ [])
    (hph : ∀ cs : List Char, p.isPrefixOf cs = true → isPh cs = true) :
    ∀ (l : List Char), ¬(p <:+: takeLit l)
  | [] => by simpa [takeLit] using fun h => hne (List.eq_nil_of_infix_nil h)
  | c :: rest => by
    intro h
    rcases hq : isPh (c :: rest) with _ | _
    · rw [takeLit, if_neg (by simp [hq])] at h
      rcases sub_cons_cases p c (takeLit rest) h with hpre | hsub
      · have : p <+: c :: rest :=
          hpre.trans (List.cons_prefix_cons.mpr ⟨rfl, takeLit_prefix_list rest⟩)
        rw [hph _ (List.isPrefixOf_iff_prefix.mpr this)] at hq
        cases hq
      · exact no_ph_in_takeLit p hne hph rest hsub
    · rw [takeLit, if_pos (by simp [hq])] at h
      exact hne (List.eq_nil_of_infix_nil h)

/-- No placeholder occurs anywhere inside a literal token. -/
theorem no_ph_in_lit (p : List Char) (hne : p ≠ [])
    (hph : ∀ cs : List Char, p.isPrefixOf cs = true → isPh cs = true)
    (c : Char) (rest : List Char) (hc : isPh (c :: rest) = false) :
    ¬(p <:+: c :: takeLit rest) := by
  intro h
  rcases sub_cons_cases p c (takeLit rest) h with hpre | hsub
  · have : p <+: c :: rest :=
      hpre.trans (List.cons_prefix_cons.mpr ⟨rfl, takeLit_prefix_list rest⟩)
    rw [hph _ (List.isPrefixOf_iff_prefix.mpr this)] at hc
    cases hc
  · exact no_ph_in_takeLit p hne hph rest hsub

theorem page_starts_ph (cs : List Char)
    (h : PAGE_PLACEHOLDER.toList.isPrefixOf cs = true) : isPh cs = true := by
  simp only [isPh, Bool.or_eq_true]
  exact Or.inl h

theorem numpages_starts_ph (cs : List Char)
    (h : NUMPAGES_PLACEHOLDER.toList.isPrefixOf cs = true) : isPh cs = true := by
  simp only [isPh, Bool.or_eq_true]
  exact Or.inr h
theorem foldl_append_shift : ∀ (l : List String) (acc : String),
    List.foldl (fun r s => r ++ s) acc l = acc ++ List.foldl (fun r s => r ++ s) "" l
  | [], acc => by simp
  | x :: l, acc => by
    simp only [List.foldl_cons]
    rw [foldl_append_shift l (acc ++ x), foldl_append_shift l ("" ++ x),
      String.empty_append, String.append_assoc]

theorem join_cons (s : String) (l : List String) :
    String.join (s :: l) = s ++ String.join l := by
  show List.foldl (fun r s => r ++ s) ("" ++ s) l = _
  rw [String.empty_append, foldl_append_shift l s]
  rfl

theorem mk_append_mk (a b : List Char) :
    String.mk a ++ String.mk b = String.mk (a ++ b) := rfl

theorem mk_toList (s : String) : String.mk s.toList = s := rfl

theorem append_mk_eq (p : String) (b : List Char) :
    p ++ String.mk b = String.mk (p.toList ++ b) := rfl

theorem page_len : PAGE_PLACEHOLDER.toList.length = 6 := rfl

theorem numpages_len : NUMPAGES_PLACEHOLDER.toList.length = 10 := rfl

/-- Concatenating the tokens of `splitTemplateGo` rebuilds the scanned
suffix, provided the fuel covers its length. -/
theorem splitTemplateGo_join : ∀ (fuel : ℕ) (cs : List Char), cs.length ≤ fuel →
    String.join (splitTemplateGo fuel cs) = String.mk cs := by
  intro fuel
  induction fuel with
  | zero =>
    intro cs h
    rw [Nat.le_zero, List.length_eq_zero] at h
    subst h
    rfl
  | succ fuel ih =>
    intro cs h
    match cs with
    | [] => rfl
    | c :: rest =>
      simp only [List.length_cons] at h
      rw [splitTemplateGo]
      by_cases h1 : PAGE_PLACEHOLDER.toList.isPrefixOf (c :: rest) = true
      · have hlen : ((c :: rest).drop PAGE_PLACEHOLDER.toList.length).length ≤ fuel := by
          rw [List.length_drop, page_len]
          simp only [List.length_cons]
          omega
        rw [if_pos h1, join_cons, ih _ hlen, append_mk_eq]
        exact congrArg String.mk (front_append_drop (List.isPrefixOf_iff_prefix.mp h1))
      · rw [if_neg h1]
        by_cases h2 : NUMPAGES_PLACEHOLDER.toList.isPrefixOf (c :: rest) = true
        · have hlen : ((c :: rest).drop NUMPAGES_PLACEHOLDER.toList.length).length ≤ fuel := by
            rw [List.length_drop, numpages_len]
            simp only [List.length_cons]
            omega
          rw [if_pos h2, join_cons, ih _ hlen, append_mk_eq]
          exact congrArg String.mk (front_append_drop (List.isPrefixOf_iff_prefix.mp h2))
        · have hlen : ((c :: rest).drop (c :: takeLit rest).length).length ≤ fuel := by
            rw [List.length_drop]
            simp only [List.length_cons]
            omega
          rw [if_neg h2, join_cons, ih _ hlen, append_mk_eq]
          refine congrArg String.mk ?_
          show (c :: takeLit rest) ++ (c :: rest).drop (c :: takeLit rest).length = c :: rest
          simp only [List.length_cons, List.cons_append, List.drop_succ_cons]
          rw [takeLit_append_drop rest]

/-- Every token of `splitTemplateGo` is one of the two placeholders or
a non-empty literal containing no placeholder occurrence. -/
theorem splitTemplateGo_tokens : ∀ (fuel : ℕ) (cs : List Char),
    ∀ tok ∈ splitTemplateGo fuel cs,
      tok = PAGE_PLACEHOLDER ∨ tok = NUMPAGES_PLACEHOLDER ∨
        (tok ≠ "" ∧ ¬(PAGE_PLACEHOLDER.toList <:+: tok.toList) ∧
          ¬(NUMPAGES_PLACEHOLDER.toList <:+: tok.toList)) := by
  intro fuel
  induction fuel with
  | zero => intro cs tok htok; simp [splitTemplateGo] at htok
  | succ fuel ih =>
    intro cs tok htok
    match cs with
    | [] => simp [splitTemplateGo] at htok
    | c :: rest =>
      rw [splitTemplateGo] at htok
      by_cases h1 : PAGE_PLACEHOLDER.toList.isPrefixOf (c :: rest) = true
      · rw [if_pos h1, List.mem_cons] at htok
        rcases htok with rfl | htok
        · exact Or.inl rfl
        · exact ih _ tok htok
      · rw [if_neg h1] at htok
        by_cases h2 : NUMPAGES_PLACEHOLDER.toList.isPrefixOf (c :: rest) = true
        · rw [if_pos h2, List.mem_cons] at htok
          rcases htok with rfl | htok
          · exact Or.inr (Or.inl rfl)
          · exact ih _ tok htok
        · rw [if_neg h2, List.mem_cons] at htok
          rcases htok with rfl | htok
          · refine Or.inr (Or.inr ⟨?_, ?_, ?_⟩)
            · intro hbad
              have := congrArg String.toList hbad
              simp [String.toList] at this
            · have hc : isPh (c :: rest) = false := by
                simp only [isPh, Bool.or_eq_false_iff]
                exact ⟨Bool.eq_false_iff.mpr h1, Bool.eq_false_iff.mpr h2⟩
              simpa using no_ph_in_lit PAGE_PLACEHOLDER.toList (by decide)
                page_starts_ph c rest hc
            · have hc : isPh (c :: rest) = false := by
                simp only [isPh, Bool.or_eq_false_iff]
                exact ⟨Bool.eq_false_iff.mpr h1, Bool.eq_false_iff.mpr h2⟩
              simpa using no_ph_in_lit NUMPAGES_PLACEHOLDER.toList (by decide)
                numpages_starts_ph c rest hc
          · exact ih _ tok htok

/-- CLAIM C9: the tokens of `split_template` concatenate back to the
template, and every token is `"{PAGE}"`, `"{NUMPAGES}"`, or a
non-empty literal containing neither placeholder as a substring. -/
theorem split_template_partition (t : String) :
    String.join (split_template t) = t ∧
    ∀ tok ∈ split_template t,
      tok = PAGE_PLACEHOLDER ∨ tok = NUMPAGES_PLACEHOLDER ∨
        (tok ≠ "" ∧ ¬(PAGE_PLACEHOLDER.toList <:+: tok.toList) ∧
          ¬(NUMPAGES_PLACEHOLDER.toList <:+: tok.toList)) := by
  constructor
  · rw [split_template, splitTemplateGo_join t.toList.length t.toList (Nat.le_refl _),
      mk_toList]
  · exact splitTemplateGo_tokens t.toList.length t.toList

/-- Witness for C9 at the default template. -/
theorem split_template_partition_witness :
    String.join (split_template "Trang \x7bPAGE\x7d/\x7bNUMPAGES\x7d")
      = "Trang \x7bPAGE\x7d/\x7bNUMPAGES\x7d" ∧
    ("Trang " = PAGE_PLACEHOLDER ∨ "Trang " = NUMPAGES_PLACEHOLDER ∨
      ("Trang " ≠ "" ∧ ¬(PAGE_PLACEHOLDER.toList <:+: "Trang ".toList) ∧
        ¬(NUMPAGES_PLACEHOLDER.toList <:+: "Trang ".toList))) :=
  ⟨(split_template_partition "Trang \x7bPAGE\x7d/\x7bNUMPAGES\x7d").1,
   (split_template_partition "Trang \x7bPAGE\x7d/\x7bNUMPAGES\x7d").2 "Trang " (by decide)⟩
/-- CLAIM C3, counterexample: the empty template contains neither
placeholder, yet the tokenizer returns `[]`, not the one-element list
`[""]` the claim predicts. -/
theorem split_template_empty_counterexample :
    ¬(PAGE_PLACEHOLDER.toList <:+: "".toList) ∧
    ¬(NUMPAGES_PLACEHOLDER.toList <:+: "".toList) ∧
    split_template "" = [] ∧ split_template "" ≠ [""] :=
  ⟨by decide, by decide, rfl, by decide⟩

theorem takeLit_eq_self (l : List Char)
    (h1 : ¬(PAGE_PLACEHOLDER.toList <:+: l))
    (h2 : ¬(NUMPAGES_PLACEHOLDER.toList <:+: l)) : takeLit l = l := by
  induction l with
  | nil => rfl
  | cons c rest ih =>
    have hc : isPh (c :: rest) = false := by
      simp only [isPh, Bool.or_eq_false_iff]
      constructor
      · exact Bool.eq_false_iff.mpr fun hb =>
          h1 (List.isPrefixOf_iff_prefix.mp hb).isInfix
      · exact Bool.eq_false_iff.mpr fun hb =>
          h2 (List.isPrefixOf_iff_prefix.mp hb).isInfix
    rw [takeLit, if_neg (by simp [hc])]
    rw [ih (fun hb => h1 (sub_of_sub_tail _ c _ hb))
      (fun hb => h2 (sub_of_sub_tail _ c _ hb))]

/-- CLAIM C3, amended: for every NON-EMPTY template containing neither
`"{PAGE}"` nor `"{NUMPAGES}"`, the tokenizer returns exactly one
literal token equal to the input.  (For the empty template it returns
`[]`.) -/
theorem split_template_no_placeholder (t : String) (h0 : t ≠ "")
    (h1 : ¬(PAGE_PLACEHOLDER.toList <:+: t.toList))
    (h2 : ¬(NUMPAGES_PLACEHOLDER.toList <:+: t.toList)) :
    split_template t = [t] := by
  rw [split_template]
  match hcs : t.toList with
  | [] =>
    exact absurd (by simpa using congrArg String.mk hcs) h0
  | c :: rest =>
    rw [hcs] at h1 h2
    have hpage : PAGE_PLACEHOLDER.toList.isPrefixOf (c :: rest) ≠ true :=
      fun hb => h1 (List.isPrefixOf_iff_prefix.mp hb).isInfix
    have hnum : NUMPAGES_PLACEHOLDER.toList.isPrefixOf (c :: rest) ≠ true :=
      fun hb => h2 (List.isPrefixOf_iff_prefix.mp hb).isInfix
    rw [List.length_cons, splitTemplateGo, if_neg hpage, if_neg hnum,
      takeLit_eq_self rest (fun hb => h1 (sub_of_sub_tail _ c _ hb))
        (fun hb => h2 (sub_of_sub_tail _ c _ hb))]
    rw [show (c :: rest).drop (c :: rest).length = [] by simp]
    rw [splitTemplateGo_nil]
    rw [show String.mk (c :: rest) = t from by rw [← hcs]; rfl]

/-- Witness for the amended C3 at a concrete placeholder-free
template. -/
theorem split_template_no_placeholder_witness :
    ("Trang " ≠ "" ∧ ¬(PAGE_PLACEHOLDER.toList <:+: "Trang ".toList) ∧
      ¬(NUMPAGES_PLACEHOLDER.toList <:+: "Trang ".toList)) ∧
    split_template "Trang " = ["Trang "] :=
  ⟨⟨by decide, by decide, by decide⟩,
   split_template_no_placeholder "Trang " (by decide) (by decide) (by decide)⟩
/-! ## The document object model

The external python-docx collaborator is modelled by the state the
formatter reads and writes: style table, sections (page geometry,
`w:pgNumType`, header/footer), paragraphs with direct formatting and
runs, tables of cells.  Lengths are EMU values, exact rationals;
`Pt(v) = v * 12700` and `Cm(v) = v * 360000` as in `docx.shared`. -/

namespace Docx

/-- The four script slots of `w:rFonts` set by the formatter. -/
structure RFonts where
  ascii : Option String := none
  hAnsi : Option String := none
  eastAsia : Option String := none
  cs : Option String := none
deriving Repr, DecidableEq

/-- Mutable font properties (`style.font` / `run.font`).  The color is
the RGB byte triple assigned to `font.color.rgb`. -/
structure Font where
  name : Option String := none
  rFonts : RFonts := {}
  size : Option ℚ := none
  bold : Option Bool := none
  italic : Option Bool := none
  colorRgb : Option (List ℕ) := none
deriving Repr, DecidableEq

/-- Models `WD_ALIGN_PARAGRAPH` members used by the formatter. -/
inductive WdAlign where
  | left
  | center
  | right
  | justify
deriving Repr, DecidableEq

/-- Mutable paragraph-format properties; `none` is an unset (inherited)
property. -/
structure ParagraphFormat where
  line_spacing : Option ℚ := none
  space_before : Option ℚ := none
  space_after : Option ℚ := none
  first_line_indent : Option ℚ := none
  alignment : Option WdAlign := none
  keep_with_next : Option Bool := none
  page_break_before : Option Bool := none
deriving Repr, DecidableEq

/-- A text run; `breaks` counts `w:br` elements added by
`run.add_break()`. -/
structure Run where
  text : String := ""
  font : Font := {}
  breaks : ℕ := 0
deriving Repr, DecidableEq

/-- A direct child of a paragraph's XML element relevant to the
formatter: a run, or a `w:fldSimple` simple field with its cached
display text. -/
inductive ParaContent where
  | run (r : Run)
  | fldSimple (instr : String) (cachedText : String)
deriving Repr, DecidableEq

/-- A paragraph: assigned style name (`p.style.name`; `none` models
`p.style is None`), direct paragraph formatting, and content. -/
structure Paragraph where
  styleName : Option String := some "Normal"
  pf : ParagraphFormat := {}
  content : List ParaContent := []
deriving Repr, DecidableEq

/-- Models `p.runs`: the `w:r` children of the paragraph (the run cached
inside a `w:fldSimple` is not a direct child). -/
def Paragraph.runs (p : Paragraph) : List Run :=
  p.content.filterMap fun c =>
    match c with
    | ParaContent.run r => some r
    | _ => none

/-- A table cell. -/
structure Cell where
  paragraphs : List Paragraph := []
deriving Repr, DecidableEq

/-- A table: rows of cells. -/
structure Table where
  rows : List (List Cell) := []
deriving Repr, DecidableEq

/-- A header or footer story. -/
structure HeaderFooter where
  paragraphs : List Paragraph := []
deriving Repr, DecidableEq

/-- The `w:pgNumType` element of a section: number format and optional
explicit restart value (`w:start`, stored in the XML as the decimal
rendering of this integer). -/
structure PgNumType where
  fmt : Option String := none
  start : Option Int := none
deriving Repr, DecidableEq

/-- A document section. -/
structure Section where
  pgNumType : Option PgNumType := none
  page_width : Option ℚ := none
  page_height : Option ℚ := none
  left_margin : Option ℚ := none
  right_margin : Option ℚ := none
  top_margin : Option ℚ := none
  bottom_margin : Option ℚ := none
  header_distance : Option ℚ := none
  footer_distance : Option ℚ := none
  different_first_page_header_footer : Bool := false
  header : HeaderFooter := {}
  footer : HeaderFooter := {}
deriving Repr, DecidableEq

/-- A named style's mutable parts. -/
structure DocxStyle where
  font : Font := {}
  paragraph_format : ParagraphFormat := {}
deriving Repr, DecidableEq

/-- The document: body paragraphs, body tables, sections, and the style
table keyed by style name.  (No claim depends on the interleaving of
paragraphs and tables in the body, so they are kept as two
collections.) -/
structure Document where
  paragraphs : List Paragraph := []
  tables : List Table := []
  sections : List Section := []
  styles : List (String × DocxStyle) := []
deriving Repr, DecidableEq

end Docx

/-- Models `docx.shared.Pt`: points to EMU. -/
def Pt (v : ℚ) : ℚ := v * 12700

/-- Models `docx.shared.Cm`: centimeters to EMU. -/
def Cm (v : ℚ) : ℚ := v * 360000

/-- Models `dict.get(key, default)` over a literal-keyed mapping. -/
def lookupD {α : Type} : List (String × α) → String → α → α
  | [], _, dflt => dflt
  | (k, v) :: rest, key, dflt => if k = key then v else lookupD rest key dflt

/-- Models `ALIGN_MAP` from `formatter.py`. -/
def ALIGN_MAP : List (String × Docx.WdAlign) :=
  [("LEFT", Docx.WdAlign.left), ("CENTER", Docx.WdAlign.center),
   ("RIGHT", Docx.WdAlign.right), ("JUSTIFY", Docx.WdAlign.justify)]

/-- Models `PAGE_FMT_MAP` from `formatter.py`. -/
def PAGE_FMT_MAP : List (String × String) :=
  [("DECIMAL", "decimal"), ("ROMAN_UPPER", "upperRoman"),
   ("ROMAN_LOWER", "lowerRoman"), ("LETTER_UPPER", "upperLetter"),
   ("LETTER_LOWER", "lowerLetter")]

/-- Models `PAGE_NUMBER_POSITION` from `formatter.py`. -/
def PAGE_NUMBER_POSITION : List String :=
  ["FOOTER_LEFT", "FOOTER_CENTER", "FOOTER_RIGHT",
   "HEADER_LEFT", "HEADER_CENTER", "HEADER_RIGHT"]

/-- Models `PAPER_PRESET` from `formatter.py` (width, height in cm). -/
def PAPER_PRESET : List (String × (ℚ × ℚ)) :=
  [("A4_PORTRAIT", (21, mkRat 297 10)), ("A4_LANDSCAPE", (mkRat 297 10, 21))]
/-! ## Style application (`_apply_style_to_docx_style` and helpers) -/

/-- The value of one hexadecimal digit, as accepted by
`bytes.fromhex`. -/
def hexDigit (c : Char) : Option ℕ :=
  if '0' ≤ c ∧ c ≤ '9' then some (c.toNat - '0'.toNat)
  else if 'a' ≤ c ∧ c ≤ 'f' then some (c.toNat - 'a'.toNat + 10)
  else if 'A' ≤ c ∧ c ≤ 'F' then some (c.toNat - 'A'.toNat + 10)
  else none

/-- Decode consecutive pairs of hex digits into byte values. -/
def hexPairs : List Char → Option (List ℕ)
  | [] => some []
  | [_] => none
  | c1 :: c2 :: rest => do
    let hi ← hexDigit c1
    let lo ← hexDigit c2
    let bs ← hexPairs rest
    some ((16 * hi + lo) :: bs)

/-- Models `bytes.fromhex(s)`: ASCII spaces are ignored, the rest must be an
even number of hex digits; a malformed string raises `ValueError`
(`none` here). -/
def bytesFromHex (s : String) : Option (List ℕ) :=
  hexPairs (s.toList.filter (fun c => !(c = ' ')))

example : bytesFromHex "FF0000" = some [255, 0, 0] := by decide
example : bytesFromHex "not-a-color" = none := by decide

/-- Models `_set_font_all_scripts(font_element, font_name)`: stamp the four
`w:rFonts` script slots. -/
def set_font_all_scripts (f : Docx.Font) (font_name : String) : Docx.Font :=
  { f with rFonts :=
    { ascii := some font_name, hAnsi := some font_name,
      eastAsia := some font_name, cs := some font_name } }

/-- Models the runtime type of a Python value assigned to `font.color.rgb`:
either an `RGBColor` instance (the only type the python-docx setter
accepts) or a plain `bytes` object such as `bytes.fromhex` returns. -/
inductive PyColorValue where
  | rgbColor (bs : List ℕ)
  | pyBytes (bs : List ℕ)
  deriving Repr, DecidableEq

/-- Models the python-docx `ColorFormat.rgb` setter: an `RGBColor` is
stored; any other value — a `bytes` object included — makes the setter
raise (`none` here), because `ST_HexColor` formats the value as three
`%02X` components of an `RGBColor`. -/
def colorRgbSet (f : Docx.Font) : PyColorValue → Option Docx.Font
  | .rgbColor bs => some { f with colorRgb := some bs }
  | .pyBytes _ => none

/-- Models `_apply_style_to_docx_style(docx_style, cfg)`.  The color
assignment sits inside `try/except Exception: pass`: a falsy
(`None`/empty) hex string is skipped; otherwise `bytes.fromhex(s)`
either raises on malformed hex, or yields a `bytes` object that the
python-docx `rgb` setter rejects (it accepts only `RGBColor`).  Either
exception is swallowed, so the prior color is kept in every case. -/
def apply_style_to_docx_style (docx_style : Docx.DocxStyle) (cfg : StyleConfig) :
    Docx.DocxStyle :=
  let f := docx_style.font
  let f := { f with name := some cfg.font_name }
  let f := set_font_all_scripts f cfg.font_name
  let f := { f with size := some (Pt cfg.font_size_pt),
                    bold := some cfg.bold, italic := some cfg.italic }
  let f :=
    match cfg.color_hex with
    | none => f
    | some s =>
      if s = "" then f
      else
        match bytesFromHex s with
        | some bs =>
          match colorRgbSet f (PyColorValue.pyBytes bs) with
          | some f2 => f2
          | none => f
        | none => f
  let pf := docx_style.paragraph_format
  let pf := { pf with
    line_spacing := some cfg.line_spacing,
    space_before := some (Pt cfg.space_before_pt),
    space_after := some (Pt cfg.space_after_pt),
    first_line_indent :=
      if cfg.first_line_indent_cm = 0 then none else some (Cm cfg.first_line_indent_cm),
    alignment := some (lookupD ALIGN_MAP cfg.alignment.toUpper Docx.WdAlign.justify),
    keep_with_next := some cfg.keep_with_next,
    page_break_before := some cfg.page_break_before }
  { font := f, paragraph_format := pf }

/-- Models `DocxReportFormatter._apply_styles`: each of the six names that is
present in the style table is overwritten; absent ones are skipped. -/
def applyToStyleTable (styles : List (String × Docx.DocxStyle)) (nm : String)
    (scfg : StyleConfig) : List (String × Docx.DocxStyle) :=
  styles.map fun kv =>
    if kv.1 = nm then (kv.1, apply_style_to_docx_style kv.2 scfg) else kv

/-- Models `DocxReportFormatter._apply_styles(doc)`. -/
def apply_styles (cfg : ReportConfig) (doc : Docx.Document) : Docx.Document :=
  let st := applyToStyleTable doc.styles "Normal" cfg.normal
  let st := applyToStyleTable st "Title" cfg.title
  let st := applyToStyleTable st "Heading 1" cfg.heading1
  let st := applyToStyleTable st "Heading 2" cfg.heading2
  let st := applyToStyleTable st "Heading 3" cfg.heading3
  let st := applyToStyleTable st "Caption" cfg.caption
  { doc with styles := st }

/-- Models `DocxReportFormatter._apply_page_setup(doc)`. -/
def apply_page_setup (cfg : ReportConfig) (doc : Docx.Document) : Docx.Document :=
  let ps := cfg.pagesetup
  let paper := lookupD PAPER_PRESET ps.paper (21, mkRat 297 10)
  { doc with sections := doc.sections.map fun sec =>
    { sec with
      page_width := some (Cm paper.1),
      page_height := some (Cm paper.2),
      left_margin := some (Cm ps.margin_left_cm),
      right_margin := some (Cm ps.margin_right_cm),
      top_margin := some (Cm ps.margin_top_cm),
      bottom_margin := some (Cm ps.margin_bottom_cm),
      header_distance := some (Cm ps.header_distance_cm),
      footer_distance := some (Cm ps.footer_distance_cm),
      different_first_page_header_footer := ps.different_first_page } }
/-! ## Force-override sweeps (`_force_paragraph_format`, `_force_run_font`)

Python's substring test `"heading 1" in style_name` is modelled by the
decidable occurrence proposition on character lists; `.lower()` by
`String.toLower`. -/

/-- Paragraph-format stamping of one paragraph (`formatter.py`
lines 279-286), given the selected bucket configuration. -/
def stampParagraphFormat (scfg : StyleConfig) (p : Docx.Paragraph) : Docx.Paragraph :=
  { p with pf :=
    { p.pf with
      line_spacing := some scfg.line_spacing,
      space_before := some (Pt scfg.space_before_pt),
      space_after := some (Pt scfg.space_after_pt),
      first_line_indent :=
        if scfg.first_line_indent_cm = 0 then none
        else some (Cm scfg.first_line_indent_cm),
      alignment := some (lookupD ALIGN_MAP scfg.alignment.toUpper Docx.WdAlign.justify),
      keep_with_next := some scfg.keep_with_next,
      page_break_before := some scfg.page_break_before } }

/-- Run-font stamping of one run (`formatter.py` lines 309-319), given
the selected bucket configuration: name, the four script slots, and
size.  The `try/except` around the raw `rFonts` manipulation never
fires in the model. -/
def stampRunFont (scfg : StyleConfig) (r : Docx.Run) : Docx.Run :=
  { r with font :=
    { r.font with
      name := some scfg.font_name,
      rFonts := { ascii := some scfg.font_name, hAnsi := some scfg.font_name,
                  eastAsia := some scfg.font_name, cs := some scfg.font_name },
      size := some (Pt scfg.font_size_pt) } }

/-- Run-font stamping of every run of a paragraph. -/
def stampRunFontParagraph (scfg : StyleConfig) (p : Docx.Paragraph) : Docx.Paragraph :=
  { p with content := p.content.map fun c =>
    match c with
    | Docx.ParaContent.run r => Docx.ParaContent.run (stampRunFont scfg r)
    | other => other }

/-- The per-paragraph body of `_force_paragraph_format`'s loop, with
the source's inline `if/elif` bucket chain (lines 264-277). -/
def forceParagraphOne (cfg : ReportConfig) (p : Docx.Paragraph) : Docx.Paragraph :=
  let style_name := (p.styleName.getD "Normal").toLower
  let scfg :=
    if "heading 1".toList <:+: style_name.toList then cfg.heading1
    else if "heading 2".toList <:+: style_name.toList then cfg.heading2
    else if "heading 3".toList <:+: style_name.toList then cfg.heading3
    else if style_name = "title" then cfg.title
    else if "caption".toList <:+: style_name.toList then cfg.caption
    else cfg.normal
  stampParagraphFormat scfg p

/-- The per-paragraph body of `_force_run_font`'s loop, with its own
copy of the inline bucket chain (lines 294-307). -/
def forceRunFontOne (cfg : ReportConfig) (p : Docx.Paragraph) : Docx.Paragraph :=
  let style_name := (p.styleName.getD "Normal").toLower
  let scfg :=
    if "heading 1".toList <:+: style_name.toList then cfg.heading1
    else if "heading 2".toList <:+: style_name.toList then cfg.heading2
    else if "heading 3".toList <:+: style_name.toList then cfg.heading3
    else if style_name = "title" then cfg.title
    else if "caption".toList <:+: style_name.toList then cfg.caption
    else cfg.normal
  stampRunFontParagraph scfg p

/-- Applies a per-paragraph transform to every paragraph
`_iter_all_paragraphs` yields: the body paragraphs and, when
`include_tables` is set, every table-cell paragraph. -/
def mapAllParagraphs (f : Docx.Paragraph → Docx.Paragraph) (include_tables : Bool)
    (doc : Docx.Document) : Docx.Document :=
  { doc with
    paragraphs := doc.paragraphs.map f,
    tables :=
      if include_tables then
        doc.tables.map fun t =>
          { rows := t.rows.map fun row =>
              row.map fun cell => { paragraphs := cell.paragraphs.map f } }
      else doc.tables }

/-- Models `DocxReportFormatter._force_paragraph_format(doc)`. -/
def force_paragraph_format (cfg : ReportConfig) (doc : Docx.Document) : Docx.Document :=
  if cfg.processing.force_paragraph_format_everywhere = false then doc
  else mapAllParagraphs (forceParagraphOne cfg) cfg.processing.include_tables doc

/-- Models `DocxReportFormatter._force_run_font(doc)`. -/
def force_run_font (cfg : ReportConfig) (doc : Docx.Document) : Docx.Document :=
  if cfg.processing.force_run_font_everywhere = false then doc
  else mapAllParagraphs (forceRunFontOne cfg) cfg.processing.include_tables doc
/-! ## Field insertion, paragraph clearing, TOC, page numbers -/

/-- Models `_add_simple_field(paragraph, instr)`: append a `w:fldSimple` with
the instruction and the literal cached display text `"1"`. -/
def add_simple_field (p : Docx.Paragraph) (instr : String) : Docx.Paragraph :=
  { p with content := p.content ++ [Docx.ParaContent.fldSimple instr "1"] }

/-- Models `_clear_paragraph(paragraph)` removes every child of `w:p`,
including the `w:pPr` holding the direct paragraph formatting. -/
def clear_paragraph (p : Docx.Paragraph) : Docx.Paragraph :=
  { p with content := [], pf := {} }

/-- Models `_set_section_page_numbering(section, start_at, fmt, restart)`:
ensure a `w:pgNumType`, set its format, and set or remove the
`w:start` attribute. -/
def set_section_page_numbering (sec : Docx.Section) (start_at : Int) (fmt : String)
    (restart : Bool) : Docx.Section :=
  let pg := sec.pgNumType.getD {}
  let pg := { pg with fmt := some (lookupD PAGE_FMT_MAP fmt.toUpper "decimal") }
  let pg := if restart then { pg with start := some start_at }
            else { pg with start := none }
  { sec with pgNumType := some pg }

/-- Models `insert_paragraph_before(text)` / `add_paragraph(text)` /
the insert-after calls of the TOC code: a new paragraph, with a single
run when the text is non-empty (`if text:` in python-docx).  The real
python-docx `Paragraph` exposes `insert_paragraph_before` only; the
source's `insert_paragraph_after` calls are modelled by the same
paragraph construction. -/
def mkParagraphText (text : String) : Docx.Paragraph :=
  if text = "" then { styleName := some "Normal", content := [] }
  else { styleName := some "Normal", content := [Docx.ParaContent.run { text := text }] }

/-- Models `DocxReportFormatter._insert_toc_if_needed(doc)`.  When enabled it
builds the title paragraph, the TOC-field paragraph, and an empty
page-break paragraph at the start of the body; the final
`p_break.runs[0]` indexes into the runs of a paragraph created from
empty text, which has no runs, so the step fails (in the real library
the `insert_paragraph_after` attribute itself is already missing). -/
def insert_toc_if_needed (cfg : ReportConfig) (doc : Docx.Document) :
    Except String Docx.Document :=
  let tc := cfg.toc
  if tc.insert_toc = false then Except.ok doc
  else
    let p_title := mkParagraphText tc.title
    let p_title := { p_title with pf := { p_title.pf with
      alignment := some (lookupD ALIGN_MAP tc.title_alignment.toUpper Docx.WdAlign.center) } }
    let p_title := { p_title with content := p_title.content.map (fun c =>
      match c with
      | Docx.ParaContent.run r =>
        Docx.ParaContent.run { r with font :=
          { r.font with bold := some tc.title_bold,
                        size := some (Pt tc.title_font_size_pt),
                        name := some cfg.normal.font_name } }
      | other => other) }
    let p_toc := mkParagraphText ""
    let instr := "TOC \\o \"" ++ tc.heading_levels ++ "\" \\h \\z \\u"
    let p_toc := add_simple_field p_toc instr
    let p_break := mkParagraphText ""
    match p_break.runs.get? 0 with
    | none => Except.error "IndexError: list index out of range"
    | some r0 =>
      let r0 := { r0 with breaks := r0.breaks + 1 }
      let p_break := { p_break with content := [Docx.ParaContent.run r0] }
      Except.ok { doc with paragraphs := p_title :: p_toc :: p_break :: doc.paragraphs }

/-- Models `position.split("_", 1)[1]`: the part after the first underscore;
`none` models the `IndexError` when there is none. -/
def afterFirstUnderscore : List Char → Option (List Char)
  | [] => none
  | c :: rest => if c = '_' then some rest else afterFirstUnderscore rest

/-- Adds one literal template run with the page-number font
(`formatter.py` lines 368-378). -/
def addTemplateRun (pn : PageNumberConfig) (p : Docx.Paragraph) (part : String) :
    Docx.Paragraph :=
  { p with content := p.content ++ [Docx.ParaContent.run
    { text := part,
      font := { name := some pn.font_name,
                rFonts := { ascii := some pn.font_name, hAnsi := some pn.font_name,
                            eastAsia := some pn.font_name, cs := some pn.font_name },
                size := some (Pt pn.font_size_pt) } }] }

/-- The body of `_apply_page_numbers`'s per-section loop after the
position split has succeeded (`align_key_cs` is the part after the
first underscore). -/
def applyPageNumbersSectionBody (pn : PageNumberConfig) (restart : Bool)
    (sec : Docx.Section) (align_key_cs : List Char) : Docx.Section :=
  let sec := set_section_page_numbering sec pn.start_at pn.number_format restart
  let target_is_footer := pn.position.startsWith "FOOTER"
  let align_key := String.mk align_key_cs
  let alignment := lookupD
    [("LEFT", Docx.WdAlign.left), ("CENTER", Docx.WdAlign.center),
     ("RIGHT", Docx.WdAlign.right)] align_key Docx.WdAlign.center
  let hf := if target_is_footer then sec.footer else sec.header
  let para_rest : Docx.Paragraph × List Docx.Paragraph :=
    match hf.paragraphs with
    | p :: ps => (p, ps)
    | [] => ({ styleName := some "Normal", content := [] }, [])
  let para := clear_paragraph para_rest.1
  let para := { para with pf := { para.pf with alignment := some alignment } }
  let para := (split_template pn.template).foldl
    (fun q part =>
      if part = PAGE_PLACEHOLDER then add_simple_field q "PAGE"
      else if part = NUMPAGES_PLACEHOLDER then add_simple_field q "NUMPAGES"
      else addTemplateRun pn q part)
    para
  let hf2 : Docx.HeaderFooter := { paragraphs := para :: para_rest.2 }
  if target_is_footer then { sec with footer := hf2 }
  else { sec with header := hf2 }

/-- The per-section body of `_apply_page_numbers`'s loop; the position
split raises `IndexError` when the position has no underscore. -/
def applyPageNumbersSection (pn : PageNumberConfig) (restart : Bool)
    (sec : Docx.Section) : Except String Docx.Section :=
  match afterFirstUnderscore pn.position.toList with
  | none => Except.error "IndexError: list index out of range"
  | some align_key_cs =>
    Except.ok (applyPageNumbersSectionBody pn restart sec align_key_cs)

/-- The indexed loop of `_apply_page_numbers`: the first section always
restarts, later ones only when configured. -/
def applyPageNumbersSections (pn : PageNumberConfig) :
    ℕ → List Docx.Section → Except String (List Docx.Section)
  | _, [] => Except.ok []
  | idx, sec :: rest => do
    let s2 ← applyPageNumbersSection pn
      (if idx = 0 then true else pn.restart_each_section) sec
    let rest2 ← applyPageNumbersSections pn (idx + 1) rest
    Except.ok (s2 :: rest2)

/-- Models `DocxReportFormatter._apply_page_numbers(doc)`. -/
def apply_page_numbers (cfg : ReportConfig) (doc : Docx.Document) :
    Except String Docx.Document :=
  if cfg.pagenumber.enabled = false then Except.ok doc
  else do
    let ss ← applyPageNumbersSections cfg.pagenumber 0 doc.sections
    Except.ok { doc with sections := ss }

/-- Models `DocxReportFormatter.format_docx_bytes`, at the document level: the
six pipeline stages in order; any exception aborts everything. -/
def format_docx (cfg : ReportConfig) (doc : Docx.Document) :
    Except String Docx.Document := do
  let doc := apply_page_setup cfg doc
  let doc := apply_styles cfg doc
  let doc ← insert_toc_if_needed cfg doc
  let doc ← apply_page_numbers cfg doc
  let doc := force_paragraph_format cfg doc
  let doc := force_run_font cfg doc
  return doc
/-! ## Claims about style application and the sweeps -/

/-- CLAIM C2 (refuting the first half): the claim says
`color_hex="FF0000"` sets the style's font color to `FF0000`.  In fact
line 161 of `formatter.py` assigns the raw `bytes` value of
`bytes.fromhex` to `font.color.rgb`, whose setter accepts only an
`RGBColor`; the resulting exception is swallowed by the bare `except`,
so `_apply_style_to_docx_style` never changes the font color — for any
configuration, valid `"FF0000"` included.  (The `"not-a-color"` half of
the claim holds as the special case of this where `bytes.fromhex`
itself already raises.) -/
theorem color_hex_never_applied (ds : Docx.DocxStyle) (cfg : StyleConfig) :
    (apply_style_to_docx_style ds cfg).font.colorRgb = ds.font.colorRgb := by
  cases h : cfg.color_hex with
  | none => simp [apply_style_to_docx_style, set_font_all_scripts, h]
  | some s =>
    by_cases hs : s = ""
    · simp [apply_style_to_docx_style, set_font_all_scripts, h, hs]
    · cases hb : bytesFromHex s <;>
        simp [apply_style_to_docx_style, set_font_all_scripts, colorRgbSet,
          h, hs, hb]

/-- CLAIM C8: a first-line indent of exactly 0 is applied as "no
indent" (`None`) rather than a zero-length indent, and any non-zero
value as that many centimeters — both on a style definition and in the
paragraph force sweep. -/
theorem first_line_indent_zero (ds : Docx.DocxStyle) (scfg : StyleConfig)
    (p : Docx.Paragraph) :
    (apply_style_to_docx_style ds scfg).paragraph_format.first_line_indent
      = (if scfg.first_line_indent_cm = 0 then none
         else some (Cm scfg.first_line_indent_cm)) ∧
    (stampParagraphFormat scfg p).pf.first_line_indent
      = (if scfg.first_line_indent_cm = 0 then none
         else some (Cm scfg.first_line_indent_cm)) := by
  constructor <;>
    simp [apply_style_to_docx_style, stampParagraphFormat, set_font_all_scripts]

/-- The style buckets of the specification. -/
inductive StyleBucket where
  | normal
  | title
  | heading1
  | heading2
  | heading3
  | caption
deriving Repr, DecidableEq

/-- Modelled from the spec: the classification "case-insensitive test
of the paragraph's assigned style name, in order: substring
`heading 1` → Heading1, `heading 2` → Heading2, `heading 3` →
Heading3, exact `title` → Title, substring `caption` → Caption,
otherwise Normal". -/
def styleBucketSpec (styleName : String) : StyleBucket :=
  let s := styleName.toLower
  if "heading 1".toList <:+: s.toList then StyleBucket.heading1
  else if "heading 2".toList <:+: s.toList then StyleBucket.heading2
  else if "heading 3".toList <:+: s.toList then StyleBucket.heading3
  else if s = "title" then StyleBucket.title
  else if "caption".toList <:+: s.toList then StyleBucket.caption
  else StyleBucket.normal

/-- The configuration section belonging to a style bucket. -/
def bucketConfig (cfg : ReportConfig) : StyleBucket → StyleConfig
  | StyleBucket.normal => cfg.normal
  | StyleBucket.title => cfg.title
  | StyleBucket.heading1 => cfg.heading1
  | StyleBucket.heading2 => cfg.heading2
  | StyleBucket.heading3 => cfg.heading3
  | StyleBucket.caption => cfg.caption

/-- CLAIM C5: for every paragraph visited, both sweeps pick the bucket
given by the spec's classification of the paragraph's assigned style
name (the two inline `if/elif` chains factor through
`styleBucketSpec`). -/
theorem style_bucket_classification (cfg : ReportConfig) (p : Docx.Paragraph) :
    forceParagraphOne cfg p
      = stampParagraphFormat (bucketConfig cfg (styleBucketSpec (p.styleName.getD "Normal"))) p ∧
    forceRunFontOne cfg p
      = stampRunFontParagraph (bucketConfig cfg (styleBucketSpec (p.styleName.getD "Normal"))) p := by
  constructor <;>
  · simp only [forceParagraphOne, forceRunFontOne, styleBucketSpec]
    split_ifs <;> rfl

/-- CLAIM C6 (code behavior): whenever TOC insertion is enabled, the
TOC step fails instead of completing: the page-break paragraph is
created from empty text, so it has no runs and `p_break.runs[0]`
raises `IndexError` (with the real python-docx the step fails even
earlier, since `Paragraph` has no `insert_paragraph_after`). -/
theorem toc_insertion_fails (cfg : ReportConfig) (doc : Docx.Document)
    (h : cfg.toc.insert_toc = true) :
    insert_toc_if_needed cfg doc = Except.error "IndexError: list index out of range" := by
  simp [insert_toc_if_needed, h, mkParagraphText, add_simple_field, Docx.Paragraph.runs]

/-- Witness for C6 at a concrete configuration and document. -/
theorem toc_insertion_fails_witness :
    ({ toc := { insert_toc := true } } : ReportConfig).toc.insert_toc = true ∧
    insert_toc_if_needed { toc := { insert_toc := true } } {}
      = Except.error "IndexError: list index out of range" :=
  ⟨rfl, toc_insertion_fails { toc := { insert_toc := true } } {} rfl⟩
/-! ## Claim C4: restart behavior of page numbering -/

theorem position_has_suffix (pos : String) (h : pos ∈ PAGE_NUMBER_POSITION) :
    ∃ ak, afterFirstUnderscore pos.toList = some ak := by
  simp only [PAGE_NUMBER_POSITION, List.mem_cons, List.not_mem_nil, or_false] at h
  rcases h with rfl | rfl | rfl | rfl | rfl | rfl <;> exact ⟨_, rfl⟩

/-- A successful per-section page-numbering step and the `w:pgNumType`
it leaves behind. -/
theorem applyPageNumbersSection_ok (pn : PageNumberConfig) (restart : Bool)
    (sec : Docx.Section) (ak : List Char)
    (hak : afterFirstUnderscore pn.position.toList = some ak) :
    ∃ s2, applyPageNumbersSection pn restart sec = Except.ok s2 ∧
      s2.pgNumType = some
        { fmt := some (lookupD PAGE_FMT_MAP pn.number_format.toUpper "decimal"),
          start := if restart then some pn.start_at else none } := by
  have hak2 : afterFirstUnderscore pn.position.data = some ak := hak
  refine ⟨applyPageNumbersSectionBody pn restart sec ak,
    by simp [applyPageNumbersSection, hak2], ?_⟩
  cases restart <;>
    rcases hb : pn.position.startsWith "FOOTER" with _ | _ <;>
      simp [applyPageNumbersSectionBody, hb, set_section_page_numbering]

/-- CLAIM C4: with page numbering enabled and
`restart_each_section=false` on a 3-section document, after
`_apply_page_numbers` the first section's `w:pgNumType` carries
`w:start = start_at` and sections 2 and 3 carry no `w:start` (any
pre-existing one is removed). -/
theorem page_number_restart_sections (cfg : ReportConfig) (doc : Docx.Document)
    (s1 s2 s3 : Docx.Section)
    (hen : cfg.pagenumber.enabled = true)
    (hre : cfg.pagenumber.restart_each_section = false)
    (hpos : cfg.pagenumber.position ∈ PAGE_NUMBER_POSITION)
    (hsec : doc.sections = [s1, s2, s3]) :
    ∃ (d2 : Docx.Document) (t1 t2 t3 : Docx.Section),
      apply_page_numbers cfg doc = Except.ok d2 ∧
      d2.sections = [t1, t2, t3] ∧
      (∃ pg1, t1.pgNumType = some pg1 ∧ pg1.start = some cfg.pagenumber.start_at) ∧
      (∃ pg2, t2.pgNumType = some pg2 ∧ pg2.start = none) ∧
      (∃ pg3, t3.pgNumType = some pg3 ∧ pg3.start = none) := by
  obtain ⟨ak, hak⟩ := position_has_suffix cfg.pagenumber.position hpos
  obtain ⟨t1, h1ok, h1pg⟩ := applyPageNumbersSection_ok cfg.pagenumber true s1 ak hak
  obtain ⟨t2, h2ok, h2pg⟩ :=
    applyPageNumbersSection_ok cfg.pagenumber cfg.pagenumber.restart_each_section s2 ak hak
  obtain ⟨t3, h3ok, h3pg⟩ :=
    applyPageNumbersSection_ok cfg.pagenumber cfg.pagenumber.restart_each_section s3 ak hak
  rw [hre] at h2pg h3pg
  refine ⟨{ doc with sections := [t1, t2, t3] }, t1, t2, t3, ?_, rfl,
    ⟨_, h1pg, rfl⟩, ⟨_, h2pg, rfl⟩, ⟨_, h3pg, rfl⟩⟩
  simp [apply_page_numbers, hen, hsec, applyPageNumbersSections, h1ok, h2ok, h3ok]
  rfl
/-- Witness for C4 at the default configuration and a concrete
3-section document. -/
theorem page_number_restart_sections_witness :
    (({} : ReportConfig).pagenumber.enabled = true ∧
      ({} : ReportConfig).pagenumber.restart_each_section = false ∧
      ({} : ReportConfig).pagenumber.position ∈ PAGE_NUMBER_POSITION ∧
      ({ sections := [{}, {}, {}] } : Docx.Document).sections = [{}, {}, {}]) ∧
    (∃ (d2 : Docx.Document) (t1 t2 t3 : Docx.Section),
      apply_page_numbers {} { sections := [{}, {}, {}] } = Except.ok d2 ∧
      d2.sections = [t1, t2, t3] ∧
      (∃ pg1, t1.pgNumType = some pg1 ∧
        pg1.start = some ({} : ReportConfig).pagenumber.start_at) ∧
      (∃ pg2, t2.pgNumType = some pg2 ∧ pg2.start = none) ∧
      (∃ pg3, t3.pgNumType = some pg3 ∧ pg3.start = none)) :=
  ⟨⟨rfl, rfl, by decide, rfl⟩,
   page_number_restart_sections {} { sections := [{}, {}, {}] } {} {} {}
     rfl rfl (by decide) rfl⟩
